import Mathlib

/-!
Verification development for the `onlycode` plugin subsystem
(`src/onlycode/shared/plugins/`): manifest model (`models.py`), plugin
registry (`loader.py`), action executor (`actions.py`) and the two
sandboxed script engines (`scripting/python_engine.py`,
`scripting/lua_engine.py`).

Modelling conventions:
* Python strings are Lean `String`s; the Python-specific string
  operations used by the code (`lower`, `upper`, `title`, `split('\n')`,
  `rstrip`, `strip`, `replace`, slicing, `sorted`) are re-implemented
  over `List Char` so that every definition evaluates inside the kernel.
* JSON manifest data is the inductive `Json`; action configurations are
  association lists `List (String × Json)` preserving insertion order,
  mirroring Python dicts.
* The host editor (out of scope per the spec) is modelled as a read-only
  environment `HostEnv` plus an append-only log of capability calls
  (`HostEvent`); the executor's optional callbacks are presence flags.
* Exceptions are modelled with `Except String`; a handler that "raises"
  returns `.error msg` and the boundary wrappers convert that exactly as
  the source's `try/except` blocks do.
* The sandboxed script engines interpret a small statement language
  (assignment, expression statements, zero-argument function
  definitions) covering the behaviours the claims exercise; interpreter
  recursion carries explicit fuel mirroring Python's recursion limit.
-/

namespace OnlyCode

/-! ## Python string primitives -/

/-- Decidable equality for `Except`, used to evaluate handler results
on concrete inputs. -/
instance exceptDecEq {e a : Type} [DecidableEq e] [DecidableEq a] :
    DecidableEq (Except e a) := fun x y =>
  match x, y with
  | .ok u, .ok v =>
    if h : u = v then .isTrue (by rw [h]) else .isFalse (fun hc => h (Except.ok.inj hc))
  | .error u, .error v =>
    if h : u = v then .isTrue (by rw [h]) else .isFalse (fun hc => h (Except.error.inj hc))
  | .ok _, .error _ => .isFalse (fun hc => Except.noConfusion hc)
  | .error _, .ok _ => .isFalse (fun hc => Except.noConfusion hc)

/-- Python `str.lower()` (ASCII case mapping). -/
def pyLower (s : String) : String := String.mk (s.data.map Char.toLower)

/-- Python `str.upper()` (ASCII case mapping). -/
def pyUpper (s : String) : String := String.mk (s.data.map Char.toUpper)

/-- Characters of Python's `str` whitespace set. -/
def pyIsSpace (c : Char) : Bool :=
  c = ' ' || c = '\t' || c = '\n' || c = '\r' || c = '\x0b' || c = '\x0c'

/-- Python `str.rstrip()`. -/
def pyRStrip (s : String) : String :=
  String.mk ((s.data.reverse.dropWhile pyIsSpace).reverse)

/-- Python `str.strip()`. -/
def pyStrip (s : String) : String :=
  String.mk (((s.data.dropWhile pyIsSpace).reverse.dropWhile pyIsSpace).reverse)

/-- Python `str.title()` helper: walk remembering whether the previous
character was cased. -/
def pyTitleAux : Bool → List Char → List Char
  | _, [] => []
  | prevCased, c :: cs =>
    if c.isAlpha then
      (if prevCased then c.toLower else c.toUpper) :: pyTitleAux true cs
    else
      c :: pyTitleAux false cs

/-- Python `str.title()` (ASCII-cased characters). -/
def pyTitle (s : String) : String := String.mk (pyTitleAux false s.data)

/-- Python `text.split('\n')` helper over characters. -/
def splitNLAux : List Char → List Char → List String
  | [], cur => [String.mk cur.reverse]
  | '\n' :: rest, cur => String.mk cur.reverse :: splitNLAux rest []
  | c :: rest, cur => splitNLAux rest (c :: cur)

/-- Python `text.split('\n')`. -/
def splitNL (s : String) : List String := splitNLAux s.data []

/-- Python `'\n'.join(lines)`. -/
def joinNL : List String → String
  | [] => ""
  | [x] => x
  | x :: rest => x ++ "\n" ++ joinNL rest

/-- Code-point lexicographic `≤` on character lists (Python string order). -/
def strLeChars : List Char → List Char → Bool
  | [], _ => true
  | _ :: _, [] => false
  | a :: as, b :: bs => if a = b then strLeChars as bs else decide (a < b)

/-- Python `s1 <= s2` on strings. -/
def strLePy (a b : String) : Bool := strLeChars a.data b.data

/-- Stable insertion into an ascending list (equal keys keep order). -/
def insSorted (x : String) : List String → List String
  | [] => [x]
  | y :: ys => if strLePy y x then y :: insSorted x ys else x :: y :: ys

/-- Python `sorted(lines)`: stable ascending sort by code points. -/
def pySorted (l : List String) : List String :=
  l.foldl (fun acc x => insSorted x acc) []

/-- Helper for Python `str.replace`: scan with fuel (one unit per
consumed character; the caller supplies `length + 1`, which is always
sufficient because the pattern is non-empty). -/
def pyReplaceAux (pat rep : List Char) : Nat → List Char → List Char
  | 0, s => s
  | _ + 1, [] => []
  | fuel + 1, c :: cs =>
    if pat.isPrefixOf (c :: cs) then
      rep ++ pyReplaceAux pat rep fuel (List.drop (pat.length - 1) cs)
    else
      c :: pyReplaceAux pat rep fuel cs

/-- Python `s.replace(pat, rep)`: leftmost non-overlapping occurrences,
including Python's empty-pattern behaviour. -/
def pyReplace (s pat rep : String) : String :=
  match pat.data with
  | [] => String.mk (rep.data ++ s.data.foldr (fun c acc => c :: (rep.data ++ acc)) [])
  | _ :: _ => String.mk (pyReplaceAux pat.data rep.data (s.data.length + 1) s.data)

/-- Python slice `s[:n]` (by code points). -/
def strTake (s : String) (n : Nat) : String := String.mk (s.data.take n)

/-- Python `pathlib.Path(p).name`: the part after the last slash. -/
def pathBaseName (p : String) : String :=
  String.mk ((p.data.reverse.takeWhile (fun c => c ≠ '/')).reverse)

/-- Python `pathlib.Path(p).parent` rendered as a string. -/
def pathParent (p : String) : String :=
  match p.data.reverse.dropWhile (fun c => c ≠ '/') with
  | [] => "."
  | '/' :: [] => "/"
  | _ :: r => String.mk r.reverse

/-- Python `Path(base) / child`: an absolute `child` replaces `base`. -/
def pathJoin (base child : String) : String :=
  match child.data with
  | '/' :: _ => child
  | _ => base ++ "/" ++ child

/-- Python truthiness of an optional string (`None` and `""` are falsy). -/
def optStrTruthy : Option String → Bool
  | none => false
  | some s => s ≠ ""

/-! ## JSON values (manifest data and action configuration) -/

/-- JSON as produced by `json.load`. Objects and arrays preserve order,
mirroring Python dict insertion order. -/
inductive Json where
  | str (s : String)
  | num (n : Int)
  | bool (b : Bool)
  | null
  | arr (l : List Json)
  | obj (m : List (String × Json))

/-- Python `str(v)` / f-string rendering of a JSON value (container
renderings are abbreviated; the claims only exercise strings). -/
def Json.pyStr : Json → String
  | .str s => s
  | .num n => toString n
  | .bool true => "True"
  | .bool false => "False"
  | .null => "None"
  | .arr _ => "<list>"
  | .obj _ => "<dict>"

/-- Python type name of a JSON value, used in error messages. -/
def Json.pyType : Json → String
  | .str _ => "str"
  | .num _ => "int"
  | .bool _ => "bool"
  | .null => "NoneType"
  | .arr _ => "list"
  | .obj _ => "dict"

/-- Python truthiness of a JSON value. -/
def Json.truthy : Json → Bool
  | .str s => s ≠ ""
  | .num n => decide (n ≠ 0)
  | .bool b => b
  | .null => false
  | .arr [] => false
  | .arr (_ :: _) => true
  | .obj [] => false
  | .obj (_ :: _) => true

/-- Dict lookup on an association list (`d.get(k)`). -/
def dictGet {α : Type} (m : List (String × α)) (k : String) : Option α :=
  (m.find? (fun p => p.1 == k)).map (fun p => p.2)

/-- Dict membership (`k in d`). -/
def dictHasKey {α : Type} (m : List (String × α)) (k : String) : Bool :=
  m.any (fun p => p.1 == k)

/-- Dict assignment `d[k] = v`: replace in place, else append
(Python dicts keep the original insertion position on update). -/
def dictSet {α : Type} : List (String × α) → String → α → List (String × α)
  | [], k, v => [(k, v)]
  | p :: m, k, v => if p.1 = k then (k, v) :: m else p :: dictSet m k v

/-! ## `fnmatch.fnmatch` glob matching (POSIX case-sensitive) -/

/-- One token of a compiled glob pattern. -/
inductive GlobTok where
  | star
  | qmark
  | lit (c : Char)
  | cls (neg : Bool) (ranges : List (Char × Char))
deriving DecidableEq

/-- Scan a `[...]` character class body: accumulate ranges until the
closing bracket; `none` if unterminated. -/
def scanCls : List Char → List (Char × Char) → Option (List (Char × Char) × List Char)
  | [], _ => none
  | ']' :: rest, acc => some (acc.reverse, rest)
  | a :: '-' :: b :: rest, acc =>
    if b = ']' then some (((('-', '-')) :: (a, a) :: acc).reverse, rest)
    else scanCls rest ((a, b) :: acc)
  | a :: rest, acc => scanCls rest ((a, a) :: acc)

/-- Tokenize a glob pattern. Fuel is one unit per consumed character;
callers pass `length + 1` so exhaustion is unreachable. -/
def tokGlob : Nat → List Char → List GlobTok
  | 0, p => p.map GlobTok.lit
  | fuel + 1, p =>
    match p with
    | [] => []
    | '*' :: rest => .star :: tokGlob fuel rest
    | '?' :: rest => .qmark :: tokGlob fuel rest
    | '[' :: rest =>
      let (neg, rest1) := match rest with
        | '!' :: r => (true, r)
        | _ => (false, rest)
      let (lead, rest2) : List (Char × Char) × List Char := match rest1 with
        | ']' :: r => ([(']', ']')], r)
        | _ => ([], rest1)
      match scanCls rest2 lead with
      | some (ranges, rest3) => .cls neg ranges :: tokGlob fuel rest3
      | none => .lit '[' :: tokGlob fuel rest
    | c :: rest => .lit c :: tokGlob fuel rest

/-- Character class membership. -/
def inRanges (c : Char) (rs : List (Char × Char)) : Bool :=
  rs.any (fun r => decide (r.1 ≤ c) && decide (c ≤ r.2))

/-- Try a continuation at every suffix (semantics of `*`). -/
def matchStar (m : List Char → Bool) : List Char → Bool
  | [] => m []
  | c :: cs => m (c :: cs) || matchStar m cs

/-- Match a tokenized glob against characters. -/
def matchToks : List GlobTok → List Char → Bool
  | [], [] => true
  | [], _ :: _ => false
  | .star :: ts, s => matchStar (matchToks ts) s
  | .qmark :: ts, _ :: cs => matchToks ts cs
  | .qmark :: _, [] => false
  | .lit c :: ts, d :: cs => decide (c = d) && matchToks ts cs
  | .lit _ :: _, [] => false
  | .cls neg rs :: ts, d :: cs => (inRanges d rs != neg) && matchToks ts cs
  | .cls _ _ :: _, [] => false

/-- `fnmatch.fnmatch(name, pattern)` on a POSIX platform. -/
def fnmatch (name pattern : String) : Bool :=
  matchToks (tokGlob (pattern.data.length + 1) pattern.data) name.data

/-! ## Manifest model (`models.py`) -/

/-- `TriggerType` enumeration. -/
inductive TriggerType where
  | command
  | shortcut
  | on_save
  | on_open
deriving DecidableEq

/-- `TriggerType(value)`: raises `ValueError` on unknown strings. -/
def TriggerType.ofString (s : String) : Except String TriggerType :=
  if s = "command" then .ok .command
  else if s = "shortcut" then .ok .shortcut
  else if s = "on_save" then .ok .on_save
  else if s = "on_open" then .ok .on_open
  else .error ("\x27" ++ s ++ "\x27 is not a valid TriggerType")

/-- `ActionType` enumeration. -/
inductive ActionType where
  | external_command
  | snippet
  | transform
  | notify
  | chain
  | script
deriving DecidableEq

/-- `ActionType(value)`: raises `ValueError` on unknown strings. -/
def ActionType.ofString (s : String) : Except String ActionType :=
  if s = "external_command" then .ok .external_command
  else if s = "snippet" then .ok .snippet
  else if s = "transform" then .ok .transform
  else if s = "notify" then .ok .notify
  else if s = "chain" then .ok .chain
  else if s = "script" then .ok .script
  else .error ("\x27" ++ s ++ "\x27 is not a valid ActionType")

/-- `TriggerContext`: language identifiers and filename glob patterns. -/
structure TriggerContext where
  languages : List String := []
  file_patterns : List String := []
deriving DecidableEq

/-- `TriggerContext.matches(language, file_path)` from `models.py`
lines 43-65, including the Python truthiness guards on `language` and
`file_path`. -/
def TriggerContext.matches (c : TriggerContext) (language : Option String)
    (filePath : Option String) : Bool :=
  if c.languages = [] ∧ c.file_patterns = [] then true
  else if c.languages ≠ [] ∧ optStrTruthy language ∧
      (c.languages.map pyLower).contains (pyLower (language.getD "")) then true
  else if c.file_patterns ≠ [] ∧ filePath.isSome ∧
      c.file_patterns.any (fun pat => fnmatch (pathBaseName (filePath.getD "")) pat) then
    true
  else
    false

/-- `Trigger` dataclass. Manifest fields are modelled as strings (the
shapes the manifest format of spec section 6 produces). -/
structure Trigger where
  id : String
  type : TriggerType
  action_id : String
  command_name : Option String := none
  shortcut : Option String := none
  context : TriggerContext := {}
deriving DecidableEq

/-- `Action` dataclass: id, kind tag, and the remaining config keys. -/
structure Action where
  id : String
  type : ActionType
  config : List (String × Json)

/-- `Plugin` dataclass. -/
structure Plugin where
  name : String
  version : String
  description : String
  author : String
  path : String
  triggers : List Trigger := []
  actions : List (String × Action) := []
  enabled : Bool := true
  error : Option String := none

/-- Require a JSON string (manifest string fields). -/
def Json.asStr : Json → Except String String
  | .str s => .ok s
  | v => .error ("expected a string, got " ++ v.pyStr)

/-- Read an optional string list field of a context object. -/
def jsonStrList (v : Option Json) : Except String (List String) :=
  match v with
  | none => .ok []
  | some (.arr l) => l.mapM Json.asStr
  | some v => .error ("expected a list, got " ++ v.pyStr)

/-- `TriggerContext.from_dict(data)`: falsy data yields the empty
context; truthy non-dict data raises (`.get` on a non-dict). -/
def TriggerContext.fromDict (data : Option Json) : Except String TriggerContext :=
  match data with
  | none => .ok {}
  | some j =>
    if ¬ j.truthy then .ok {}
    else
      match j with
      | .obj m => do
        let langs ← jsonStrList (dictGet m "languages")
        let pats ← jsonStrList (dictGet m "file_patterns")
        .ok { languages := langs, file_patterns := pats }
      | v => .error ("\x27" ++ v.pyType ++ "\x27 object has no attribute \x27get\x27")

/-- `Trigger.from_dict(data)`: `id` and `type` are required;
`action_id` defaults to the trigger id. -/
def Trigger.fromDict (data : Json) : Except String Trigger :=
  match data with
  | .obj m => do
    let idJ ← match dictGet m "id" with
      | some v => pure v
      | none => .error "KeyError: \x27id\x27"
    let id ← idJ.asStr
    let tyJ ← match dictGet m "type" with
      | some v => pure v
      | none => .error "KeyError: \x27type\x27"
    let tyS ← tyJ.asStr
    let ty ← TriggerType.ofString tyS
    let actionId ← match dictGet m "action_id" with
      | some v => v.asStr
      | none => pure id
    let commandName ← match dictGet m "command_name" with
      | some v => Except.map some v.asStr
      | none => pure (none : Option String)
    let shortcut ← match dictGet m "shortcut" with
      | some v => Except.map some v.asStr
      | none => pure (none : Option String)
    let ctx ← TriggerContext.fromDict (dictGet m "context")
    .ok { id := id, type := ty, action_id := actionId,
          command_name := commandName, shortcut := shortcut, context := ctx }
  | v => .error ("trigger entry is not a dict: " ++ v.pyStr)

/-- `Action.from_dict(action_id, data)`: the `type` key selects the
kind; every other key becomes configuration verbatim. -/
def Action.fromDict (actionId : String) (data : Json) : Except String Action :=
  match data with
  | .obj m => do
    let tyJ ← match dictGet m "type" with
      | some v => pure v
      | none => .error "KeyError: \x27type\x27"
    let tyS ← tyJ.asStr
    let ty ← ActionType.ofString tyS
    .ok { id := actionId, type := ty,
          config := m.filter (fun p => p.1 ≠ "type") }
  | v => .error ("action entry is not a dict: " ++ v.pyStr)

/-- `Plugin.from_dict(data, plugin_path)` from `models.py` lines 122-139. -/
def Plugin.fromDict (data : Json) (pluginPath : String) : Except String Plugin :=
  match data with
  | .obj m => do
    let triggers ← match dictGet m "triggers" with
      | none => pure []
      | some (.arr l) => l.mapM Trigger.fromDict
      | some v => .error ("\x27" ++ v.pyType ++ "\x27 object is not iterable")
    let actions ← match dictGet m "actions" with
      | none => pure ([] : List (String × Action))
      | some (.obj am) => am.mapM (fun p => do pure (p.1, ← Action.fromDict p.1 p.2))
      | some v => .error ("\x27" ++ v.pyType ++ "\x27 object has no attribute \x27items\x27")
    let name ← match dictGet m "name" with
      | none => pure "Unknown Plugin"
      | some v => v.asStr
    let version ← match dictGet m "version" with
      | none => pure "0.0.0"
      | some v => v.asStr
    let description ← match dictGet m "description" with
      | none => pure ""
      | some v => v.asStr
    let author ← match dictGet m "author" with
      | none => pure "Unknown"
      | some v => v.asStr
    .ok { name := name, version := version, description := description,
          author := author, path := pluginPath, triggers := triggers,
          actions := actions }
  | v => .error ("\x27" ++ v.pyType ++ "\x27 object has no attribute \x27get\x27")

/-- The plugin's actions dict lookup, `Plugin.get_action`. -/
def Plugin.getAction (p : Plugin) (actionId : String) : Option Action :=
  dictGet p.actions actionId

example : fnmatch "report.txt" "*.txt" = true := by decide
example : fnmatch "report.txt" "*.py" = false := by decide
example : fnmatch "a.txt" "[ab].txt" = true := by decide
example : fnmatch "c.txt" "[!ab].txt" = true := by decide
example : TriggerContext.matches { languages := ["python"] } (some "Python") none = true := by decide
example : TriggerContext.matches { languages := ["python"] } (some "javascript") none = false := by decide
example : pySorted ["b", "a", "c"] = ["a", "b", "c"] := by decide
example : pyReplace "Hello $name and $name2" "$name" "X" = "Hello X and X2" := by decide
example : pyTitle "hello world" = "Hello World" := by decide

/-! ## Action executor (`actions.py`)

The host editor is external: reads (`get_text`, `get_selection`,
`get_file_path`, `get_language`, dates, subprocess results, script
engine results) come from a fixed `HostEnv`; writes and notifications
are appended to a `HostEvent` log. The executor's optional callbacks
are modelled as presence flags, matching the `if self._callback:`
guards in the source. -/

/-- One capability call made against the host during execution. -/
inductive HostEvent where
  | setText (s : String)
  | replaceSelection (s : String)
  | insertText (s : String)
  | setCursor (line col : Int)
  | notify (title msg : String)
  | printed (title msg : String)
deriving DecidableEq

/-- Result of `subprocess.run(command, shell=True, ..., timeout=30)`. -/
inductive CmdOutcome where
  | timeout
  | exn (msg : String)
  | done (returncode : Int) (stdout stderr : String)

/-- The read-only host environment: editor reads plus oracles for the
external effects (subprocess, script engines, clock). -/
structure HostEnv where
  editorText : String
  selection : String
  filePath : Option String
  language : String
  today : String
  nowDT : String
  runCommand : String → Option String → Option String → CmdOutcome
  lupaAvailable : Bool
  luaRunFile : String → Option String → Bool × Option String
  luaRunCode : String → Option String → Bool × Option String
  pyRunFile : String → Option String → Bool × Option String
  pyRunCode : String → Option String → Bool × Option String

/-- `ActionExecutor` state: which callbacks `set_callbacks` installed,
plus the per-plugin base path set by `set_plugin_base_path`. -/
structure ActionExecutor where
  hasNotify : Bool := true
  hasGetEditorText : Bool := true
  hasSetEditorText : Bool := true
  hasGetSelection : Bool := true
  hasReplaceSelection : Bool := true
  hasInsertText : Bool := true
  hasGetFilePath : Bool := true
  hasGetLanguage : Bool := true
  pluginBasePath : Option String := none
deriving DecidableEq

/-- The capability-call log. -/
abbrev Log := List HostEvent

/-- The execution `context` dict; it is threaded through but never
consulted by any handler in the source. -/
abbrev Ctx := List (String × Json)

/-- `ActionExecutor._notify`: the callback if installed, else `print`. -/
def notifyOp (ex : ActionExecutor) (title msg : String) (log : Log) : Log :=
  if ex.hasNotify then log ++ [.notify title msg] else log ++ [.printed title msg]

/-- Compare a JSON config value against a string constant (`v == "s"`). -/
def Json.isStr : Json → String → Bool
  | .str t, s => t == s
  | _, _ => false

/-- Python truthiness of an optional config value. -/
def optJsonTruthy (v : Option Json) : Bool :=
  (v.map Json.truthy).getD false

/-- `ActionExecutor._execute_external_command` (`actions.py` 105-177). -/
def executeExternalCommand (env : HostEnv) (ex : ActionExecutor)
    (config : List (String × Json)) (log : Log) : Except String Bool × Log :=
  let cmdJ := dictGet config "command"
  if ¬ optJsonTruthy cmdJ then
    (.ok false, notifyOp ex "Plugin Error" "No command specified" log)
  else
    match cmdJ with
    | some (.str cmd) =>
      let inputType := (dictGet config "input").getD (.str "none")
      let outputType := (dictGet config "output").getD (.str "none")
      let workingDir := dictGet config "working_dir"
      let stdinData : Option String :=
        if inputType.isStr "file_contents" ∧ ex.hasGetEditorText then some env.editorText
        else if inputType.isStr "selection" ∧ ex.hasGetSelection then some env.selection
        else none
      let fallbackCwd : Option String :=
        if ex.hasGetFilePath then
          match env.filePath with
          | some fp => some (pathParent fp)
          | none => none
        else none
      let cwdE : Except String (Option String) :=
        match workingDir with
        | some (.str ws) => if ws ≠ "" then .ok (some ws) else .ok fallbackCwd
        | some v => if v.truthy then .error ("expected str for cwd, not " ++ v.pyStr)
                    else .ok fallbackCwd
        | none => .ok fallbackCwd
      match cwdE with
      | .error e => (.error e, log)
      | .ok cwd =>
        match env.runCommand cmd stdinData cwd with
        | .exn m => (.ok false, notifyOp ex "Command Error" m log)
        | .timeout =>
          (.ok false, notifyOp ex "Command Timeout" "Command took too long to execute" log)
        | .done rc out err =>
          if rc ≠ 0 then
            let errorMsg := if err ≠ "" then err else "Command exited with code " ++ toString rc
            (.ok false, notifyOp ex "Command Failed" (strTake errorMsg 200) log)
          else
            let log1 :=
              if outputType.isStr "replace_file_contents" ∧ ex.hasSetEditorText then
                log ++ [.setText out]
              else if outputType.isStr "replace_selection" ∧ ex.hasReplaceSelection then
                log ++ [.replaceSelection out]
              else if outputType.isStr "insert" ∧ ex.hasInsertText then
                log ++ [.insertText out]
              else if outputType.isStr "notify" then
                notifyOp ex "Command Output" (strTake out 500) log
              else log
            (.ok true, log1)
    | _ => (.error "expected str for command", log)

/-- Snippet variable resolution (`actions.py` 192-210): the if/elif
chain over the configured source, falling back to the literal value. -/
def resolveVar (env : HostEnv) (ex : ActionExecutor) (srcv : Json) : String :=
  if srcv.isStr "selection" ∧ ex.hasGetSelection then env.selection
  else if srcv.isStr "file_name" ∧ ex.hasGetFilePath then
    match env.filePath with
    | some fp => pathBaseName fp
    | none => ""
  else if srcv.isStr "file_path" ∧ ex.hasGetFilePath then
    match env.filePath with
    | some fp => fp
    | none => ""
  else if srcv.isStr "date" then env.today
  else if srcv.isStr "datetime" then env.nowDT
  else srcv.pyStr

/-- Snippet substitution loop (`actions.py` 212-216): for each variable
in order, replace all occurrences of the braced form and then the bare
form in the whole intermediate string. -/
def substVars (template : String) (vals : List (String × String)) : String :=
  vals.foldl
    (fun acc p =>
      pyReplace (pyReplace acc ("$" ++ "\x7b" ++ p.1 ++ "\x7d") p.2) ("$" ++ p.1) p.2)
    template

/-- `ActionExecutor._execute_snippet` (`actions.py` 179-223). -/
def executeSnippet (env : HostEnv) (ex : ActionExecutor)
    (config : List (String × Json)) (log : Log) : Except String Bool × Log :=
  let templateJ := (dictGet config "template").getD (.str "")
  let variablesJ := (dictGet config "variables").getD (.obj [])
  match variablesJ with
  | .obj vars =>
    let varValues := vars.map (fun p => (p.1, resolveVar env ex p.2))
    match templateJ with
    | .str template =>
      let result := substVars template varValues
      if ex.hasInsertText then (.ok true, log ++ [.insertText result])
      else (.ok false, log)
    | v =>
      -- a non-string template raises at the first `.replace`; with no
      -- variables the object is handed to `insert_text` unchanged
      if vars.isEmpty then
        if ex.hasInsertText then (.ok true, log ++ [.insertText v.pyStr])
        else (.ok false, log)
      else (.error ("\x27" ++ v.pyType ++ "\x27 object has no attribute \x27replace\x27"), log)
  | v => (.error ("\x27" ++ v.pyType ++ "\x27 object has no attribute \x27items\x27"), log)

/-- First-occurrence de-duplication helper for `unique_lines`. -/
def uniqueKeepFirstAux (seen : List String) : List String → List String
  | [] => []
  | l :: ls =>
    if seen.contains l then uniqueKeepFirstAux seen ls
    else l :: uniqueKeepFirstAux (l :: seen) ls

/-- `unique_lines`: duplicates dropped, first-occurrence order kept. -/
def uniqueKeepFirst (ls : List String) : List String := uniqueKeepFirstAux [] ls

/-- The transform names `_apply_transform` recognizes. -/
def recognizedTransforms : List String :=
  ["uppercase", "lowercase", "titlecase", "sort_lines", "reverse_lines",
   "unique_lines", "trim_whitespace", "remove_blank_lines"]

/-- `ActionExecutor._apply_transform` (`actions.py` 263-294): `none`
models the `None` return after the unknown-transform notification. -/
def applyTransform (ex : ActionExecutor) (text : String) (transform : Json)
    (log : Log) : Option String × Log :=
  if transform.isStr "uppercase" then (some (pyUpper text), log)
  else if transform.isStr "lowercase" then (some (pyLower text), log)
  else if transform.isStr "titlecase" then (some (pyTitle text), log)
  else if transform.isStr "sort_lines" then (some (joinNL (pySorted (splitNL text))), log)
  else if transform.isStr "reverse_lines" then (some (joinNL (splitNL text).reverse), log)
  else if transform.isStr "unique_lines" then (some (joinNL (uniqueKeepFirst (splitNL text))), log)
  else if transform.isStr "trim_whitespace" then (some (joinNL ((splitNL text).map pyRStrip)), log)
  else if transform.isStr "remove_blank_lines" then
    (some (joinNL ((splitNL text).filter (fun l => pyStrip l ≠ ""))), log)
  else (none, notifyOp ex "Transform Error" ("Unknown transform: " ++ transform.pyStr) log)

/-- `ActionExecutor._execute_transform` (`actions.py` 225-261). -/
def executeTransform (env : HostEnv) (ex : ActionExecutor)
    (config : List (String × Json)) (log : Log) : Except String Bool × Log :=
  let transform := (dictGet config "transform").getD (.str "")
  let target := (dictGet config "target").getD (.str "selection")
  let step : String → Bool → (String → HostEvent) → Except String Bool × Log :=
    fun text hasWrite mkEvent =>
      if text = "" then (.ok false, log)
      else
        match applyTransform ex text transform log with
        | (some result, log1) =>
          if hasWrite then (.ok true, log1 ++ [mkEvent result])
          else (.ok false, log1)
        | (none, log1) => (.ok false, log1)
  if target.isStr "selection" ∧ ex.hasGetSelection then
    step env.selection ex.hasReplaceSelection HostEvent.replaceSelection
  else if target.isStr "file_contents" ∧ ex.hasGetEditorText then
    step env.editorText ex.hasSetEditorText HostEvent.setText
  else
    (.ok false, log)

/-- `ActionExecutor._execute_notify` (`actions.py` 296-309). -/
def executeNotify (env : HostEnv) (ex : ActionExecutor)
    (config : List (String × Json)) (log : Log) : Except String Bool × Log :=
  let title := (dictGet config "title").getD (.str "Plugin")
  let message := (dictGet config "message").getD (.str "")
  (.ok true, notifyOp ex title.pyStr message.pyStr log)

/-- `ActionExecutor._execute_script` (`actions.py` 340-402). Engine
execution results (success flag and captured last error) come from the
`HostEnv` oracles; the per-call sandbox construction itself is modelled
in the engine section below. -/
def executeScript (env : HostEnv) (ex : ActionExecutor)
    (config : List (String × Json)) (log : Log) : Except String Bool × Log :=
  match (dictGet config "engine").getD (.str "lua") with
  | .str engRaw =>
    let engineType := pyLower engRaw
    let scriptFile := dictGet config "file"
    let inlineCode := dictGet config "code"
    let entryPoint : Option String := (dictGet config "entry_point").map Json.pyStr
    let finish : Bool × Option String → Except String Bool × Log :=
      fun res =>
        if res.1 then (.ok true, log)
        else
          let err := match res.2 with
            | some e => if e ≠ "" then e else "Unknown error"
            | none => "Unknown error"
          (.ok false, notifyOp ex "Script Error" err log)
    let runWith : (String → Option String → Bool × Option String) →
        (String → Option String → Bool × Option String) → Except String Bool × Log :=
      fun runFile runCode =>
        if optJsonTruthy scriptFile then
          match scriptFile with
          | some (.str f) =>
            let scriptPath := match ex.pluginBasePath with
              | some base => pathJoin base f
              | none => f
            finish (runFile scriptPath entryPoint)
          | _ => (.error "unsupported operand type for path division", log)
        else if optJsonTruthy inlineCode then
          match inlineCode with
          | some (.str codeS) => finish (runCode codeS entryPoint)
          | _ => (.error "expected str for code", log)
        else
          (.ok false, notifyOp ex "Script Error" "No script file or inline code specified" log)
    if engineType = "lua" then
      if ¬ env.lupaAvailable then
        (.ok false,
         notifyOp ex "Script Error" "Lua engine not available. Install lupa: pip install lupa" log)
      else runWith env.luaRunFile env.luaRunCode
    else if engineType = "python" then
      runWith env.pyRunFile env.pyRunCode
    else
      (.ok false, notifyOp ex "Script Error" ("Unknown script engine: " ++ engineType) log)
  | v => (.error ("\x27" ++ v.pyType ++ "\x27 object has no attribute \x27lower\x27"), log)

/-- Synthesize the temporary `Action` for one chain entry
(`actions.py` 323-329), with the exceptions Python raises for a missing
or invalid `type` key or a non-dict entry. -/
def synthChainAction (parentId : String) (i : Nat) (e : Json) : Except String Action :=
  match e with
  | .obj m =>
    match dictGet m "type" with
    | some (.str t) =>
      (ActionType.ofString t).map (fun ty =>
        { id := parentId ++ "_chain_" ++ toString i, type := ty,
          config := m.filter (fun p => p.1 ≠ "type") })
    | some v => .error ("\x27" ++ v.pyStr ++ "\x27 is not a valid ActionType")
    | none => .error "None is not a valid ActionType"
  | .str _ => .error "\x27str\x27 object has no attribute \x27get\x27"
  | .num _ => .error "\x27int\x27 object has no attribute \x27get\x27"
  | .bool _ => .error "\x27bool\x27 object has no attribute \x27get\x27"
  | .null => .error "\x27NoneType\x27 object has no attribute \x27get\x27"
  | .arr _ => .error "\x27list\x27 object has no attribute \x27get\x27"

theorem sizeOf_filter_le {α : Type} [SizeOf α] (p : α → Bool) (l : List α) :
    sizeOf (l.filter p) ≤ sizeOf l := by
  induction l with
  | nil => simp [List.filter]
  | cons x xs ih =>
    simp only [List.filter]
    cases p x <;> simp <;> omega

theorem dictGet_sizeOf {v : Json} {m : List (String × Json)} {k : String}
    (h : dictGet m k = some v) : sizeOf v < sizeOf m := by
  unfold dictGet at h
  cases hf : m.find? (fun p => p.1 == k) with
  | none => rw [hf] at h; simp at h
  | some p =>
    rw [hf] at h
    simp at h
    have hm : p ∈ m := List.mem_of_find?_eq_some hf
    have h1 : sizeOf p < sizeOf m := List.sizeOf_lt_of_mem hm
    cases p with
    | mk a b =>
      simp at h
      subst h
      simp at h1 ⊢
      omega

theorem synthChainAction_config_sizeOf {pid : String} {i : Nat} {e : Json} {temp : Action}
    (h : synthChainAction pid i e = .ok temp) : sizeOf temp.config < sizeOf e := by
  obtain ⟨tid, tty, tcfg⟩ := temp
  cases e with
  | obj m =>
    simp only [synthChainAction] at h
    cases hg : dictGet m "type" with
    | none => rw [hg] at h; simp at h
    | some v =>
      rw [hg] at h
      cases v with
      | str t =>
        dsimp only [] at h
        cases ho : ActionType.ofString t with
        | error e2 => rw [ho] at h; simp [Except.map] at h
        | ok ty =>
          rw [ho] at h
          simp [Except.map, Action.mk.injEq] at h
          have hc := h.2.2
          subst hc
          have hf := sizeOf_filter_le (fun p : String × Json => !decide (p.1 = "type")) m
          simp only [Json.obj.sizeOf_spec]
          omega
      | num n => simp at h
      | bool b => simp at h
      | null => simp at h
      | arr l => simp at h
      | obj m2 => simp at h
  | str s => simp [synthChainAction] at h
  | num n => simp [synthChainAction] at h
  | bool b => simp [synthChainAction] at h
  | null => simp [synthChainAction] at h
  | arr l => simp [synthChainAction] at h

mutual

/-- `ActionExecutor.execute` (`actions.py` 67-96): the public boundary
wrapping the kind dispatch in `try/except`. -/
def ActionExecutor.execute (env : HostEnv) (ex : ActionExecutor) (a : Action)
    (ctx : Ctx) (log : Log) : Bool × Log :=
  match ActionExecutor.executeInner env ex a ctx log with
  | (.ok b, log1) => (b, log1)
  | (.error e, log1) => (false, notifyOp ex "Plugin Error" ("Action failed: " ++ e) log1)
termination_by (sizeOf a.config, 2)
decreasing_by
  apply Prod.Lex.right
  omega

/-- The kind dispatch inside the `try` block of `execute`, including
the chain handler's list extraction (`actions.py` 78-93, 311-321). -/
def ActionExecutor.executeInner (env : HostEnv) (ex : ActionExecutor) (a : Action)
    (ctx : Ctx) (log : Log) : Except String Bool × Log :=
  match a.type with
  | .external_command => executeExternalCommand env ex a.config log
  | .snippet => executeSnippet env ex a.config log
  | .transform => executeTransform env ex a.config log
  | .notify => executeNotify env ex a.config log
  | .script => executeScript env ex a.config log
  | .chain =>
    match h : dictGet a.config "actions" with
    | none => (.ok true, log)
    | some (Json.arr entries) =>
      let r := ActionExecutor.runChain env ex a.id ctx entries 0 log
      (.ok r.1, r.2)
    | some (Json.str s) =>
      -- Python iterates the string's characters; each raises inside the loop
      if s = "" then (.ok true, log)
      else
        (.ok false,
         notifyOp ex "Chain Error" "Action 0 failed: \x27str\x27 object has no attribute \x27get\x27" log)
    | some (Json.obj []) => (.ok true, log)
    | some (Json.obj (_ :: _)) =>
      -- Python iterates the dict's keys (strings); each raises inside the loop
      (.ok false,
       notifyOp ex "Chain Error" "Action 0 failed: \x27str\x27 object has no attribute \x27get\x27" log)
    | some (Json.num _) => (.error "\x27int\x27 object is not iterable", log)
    | some (Json.bool _) => (.error "\x27bool\x27 object is not iterable", log)
    | some Json.null => (.error "\x27NoneType\x27 object is not iterable", log)
termination_by (sizeOf a.config, 1)
decreasing_by
  have h1 := dictGet_sizeOf h
  simp only [Json.arr.sizeOf_spec] at h1
  apply Prod.Lex.left
  omega

/-- The chain loop (`actions.py` 321-338): synthesize each entry,
execute it, stop at the first failure; a raise while handling entry `i`
is caught and reported as `Action i failed`. -/
def ActionExecutor.runChain (env : HostEnv) (ex : ActionExecutor) (parentId : String)
    (ctx : Ctx) (entries : List Json) (i : Nat) (log : Log) : Bool × Log :=
  match entries with
  | [] => (true, log)
  | e :: rest =>
    match hs : synthChainAction parentId i e with
    | .error msg =>
      (false, notifyOp ex "Chain Error" ("Action " ++ toString i ++ " failed: " ++ msg) log)
    | .ok temp =>
      let r := ActionExecutor.execute env ex temp ctx log
      if r.1 then ActionExecutor.runChain env ex parentId ctx rest (i + 1) r.2
      else (false, r.2)
termination_by (sizeOf entries, 2)
decreasing_by
  · have h1 := synthChainAction_config_sizeOf hs
    apply Prod.Lex.left
    simp only [List.cons.sizeOf_spec]
    omega
  · apply Prod.Lex.left
    simp only [List.cons.sizeOf_spec]
    omega

end

/-! ## Plugin registry (`loader.py`) -/

/-- A subdirectory of the plugins root: its name and, when a
`plugin.json` exists, the result of `json.load` on its contents
(`.error` models a `json.JSONDecodeError`). -/
structure PluginDir where
  name : String
  manifest : Option (Except String Json)

/-- `PluginManager` registry state. -/
structure PluginManager where
  plugins : List (String × Plugin) := []

/-- `PluginManager._load_plugin` (`loader.py` 55-97): no manifest file
yields nothing; a decode or model error yields a disabled error entry
keyed by the directory name. -/
def PluginManager.loadPlugin (d : PluginDir) : Option Plugin :=
  match d.manifest with
  | none => none
  | some (.error e) =>
    some { name := d.name, version := "0.0.0", description := "", author := "",
           path := d.name, enabled := false, error := some ("Invalid JSON: " ++ e) }
  | some (.ok j) =>
    match Plugin.fromDict j d.name with
    | .ok p => some p
    | .error e =>
      some { name := d.name, version := "0.0.0", description := "", author := "",
             path := d.name, enabled := false, error := some ("Failed to load: " ++ e) }

/-- `PluginManager.load_plugins` (`loader.py` 35-53): clear, then insert
each loaded plugin into the registry dict keyed by its name. -/
def PluginManager.loadPlugins (dirs : List PluginDir) : List (String × Plugin) :=
  dirs.foldl
    (fun acc d =>
      match PluginManager.loadPlugin d with
      | some p => dictSet acc p.name p
      | none => acc)
    []

/-- `PluginManager.get_plugin`. -/
def PluginManager.getPlugin (mgr : PluginManager) (name : String) : Option Plugin :=
  dictGet mgr.plugins name

/-- `PluginManager.get_enabled_plugins`: enabled and without a truthy
error message. -/
def PluginManager.getEnabledPlugins (mgr : PluginManager) : List Plugin :=
  (mgr.plugins.map (fun p => p.2)).filter
    (fun p => p.enabled && ¬ optStrTruthy p.error)

/-- `PluginManager.execute_trigger` (`loader.py` 129-161). Returns the
boolean result, the executor state after the call (the base path is the
only field the call can change), and the capability log. -/
def PluginManager.executeTrigger (env : HostEnv) (mgr : PluginManager)
    (executor : Option ActionExecutor) (pluginName triggerId : String)
    (ctx : Ctx) (log : Log) : Bool × Option ActionExecutor × Log :=
  match mgr.getPlugin pluginName with
  | none => (false, executor, log)
  | some plugin =>
    if ¬ plugin.enabled ∨ optStrTruthy plugin.error then (false, executor, log)
    else
      match plugin.triggers.find? (fun t => t.id == triggerId) with
      | none => (false, executor, log)
      | some trigger =>
        match plugin.getAction trigger.action_id with
        | none => (false, executor, log)
        | some action =>
          match executor with
          | none => (false, executor, log)
          | some ex =>
            let ex1 := { ex with pluginBasePath := some plugin.path }
            let r := ActionExecutor.execute env ex1 action ctx log
            (r.1, some ex1, r.2)

/-! ## Sandboxed script engines (`scripting/python_engine.py`,
`scripting/lua_engine.py`)

Plugin-supplied code is modelled as a small statement language:
assignments, expression statements and zero-argument function
definitions whose body is one expression. This covers the behaviours
the specification's engine contracts quantify over (defining globals,
reading globals, defining and invoking entry points). Interpreter
recursion carries explicit fuel, mirroring Python's recursion limit. -/

/-- Literals of the modelled Python fragment. -/
inductive PyLit where
  | int (n : Int)
  | str (s : String)
  | boolean (b : Bool)
  | pynone
deriving DecidableEq

/-- Expressions: literals, global-name reads, zero-argument calls. -/
inductive PyExpr where
  | lit (l : PyLit)
  | name (x : String)
  | call (f : PyExpr)
deriving DecidableEq

/-- Top-level statements of the modelled Python fragment. -/
inductive PyStmt where
  | assign (x : String) (e : PyExpr)
  | exprStmt (e : PyExpr)
  | defFunc (x : String) (body : PyExpr)
deriving DecidableEq

/-- Runtime values of the modelled Python fragment. -/
inductive PyVal where
  | int (n : Int)
  | str (s : String)
  | boolean (b : Bool)
  | pynone
  | func (body : PyExpr)
  | builtinFn (name : String)
  | builtinsDict
  | editorObj
deriving DecidableEq

/-- Value of a literal. -/
def pyLitVal : PyLit → PyVal
  | .int n => .int n
  | .str s => .str s
  | .boolean b => .boolean b
  | .pynone => .pynone

/-- Python `callable(v)` over the modelled values. -/
def pyCallable : PyVal → Bool
  | .func _ => true
  | .builtinFn _ => true
  | _ => false

/-- Python type name of a value, for error messages. -/
def pyTypeName : PyVal → String
  | .int _ => "int"
  | .str _ => "str"
  | .boolean _ => "bool"
  | .pynone => "NoneType"
  | .func _ => "function"
  | .builtinFn _ => "builtin_function_or_method"
  | .builtinsDict => "dict"
  | .editorObj => "EditorAPI"

/-- `PythonEngine` state: only the captured last error. -/
structure PythonEngine where
  lastError : Option String := none
deriving DecidableEq

/-- `PythonEngine.SAFE_BUILTINS` (`python_engine.py` 19-79), in source
order: types, functions, exceptions, constants. -/
def PythonEngine.SAFE_BUILTINS : List (String × PyVal) :=
  [("bool", .builtinFn "bool"), ("int", .builtinFn "int"),
   ("float", .builtinFn "float"), ("str", .builtinFn "str"),
   ("list", .builtinFn "list"), ("dict", .builtinFn "dict"),
   ("tuple", .builtinFn "tuple"), ("set", .builtinFn "set"),
   ("frozenset", .builtinFn "frozenset"), ("bytes", .builtinFn "bytes"),
   ("bytearray", .builtinFn "bytearray"),
   ("abs", .builtinFn "abs"), ("all", .builtinFn "all"),
   ("any", .builtinFn "any"), ("ascii", .builtinFn "ascii"),
   ("bin", .builtinFn "bin"), ("chr", .builtinFn "chr"),
   ("divmod", .builtinFn "divmod"), ("enumerate", .builtinFn "enumerate"),
   ("filter", .builtinFn "filter"), ("format", .builtinFn "format"),
   ("hash", .builtinFn "hash"), ("hex", .builtinFn "hex"),
   ("isinstance", .builtinFn "isinstance"), ("issubclass", .builtinFn "issubclass"),
   ("iter", .builtinFn "iter"), ("len", .builtinFn "len"),
   ("map", .builtinFn "map"), ("max", .builtinFn "max"),
   ("min", .builtinFn "min"), ("next", .builtinFn "next"),
   ("oct", .builtinFn "oct"), ("ord", .builtinFn "ord"),
   ("pow", .builtinFn "pow"), ("print", .builtinFn "print"),
   ("range", .builtinFn "range"), ("repr", .builtinFn "repr"),
   ("reversed", .builtinFn "reversed"), ("round", .builtinFn "round"),
   ("slice", .builtinFn "slice"), ("sorted", .builtinFn "sorted"),
   ("sum", .builtinFn "sum"), ("zip", .builtinFn "zip"),
   ("Exception", .builtinFn "Exception"), ("ValueError", .builtinFn "ValueError"),
   ("TypeError", .builtinFn "TypeError"), ("KeyError", .builtinFn "KeyError"),
   ("IndexError", .builtinFn "IndexError"), ("AttributeError", .builtinFn "AttributeError"),
   ("True", .boolean true), ("False", .boolean false), ("None", .pynone)]

/-- `PythonEngine._create_restricted_globals` (`python_engine.py`
91-103): the safe-builtins dict, module metadata, and the editor API. -/
def PythonEngine.createRestrictedGlobals : List (String × PyVal) :=
  [("__builtins__", .builtinsDict), ("__name__", .str "__main__"),
   ("__doc__", .pynone), ("editor", .editorObj)]

/-- Name resolution during `exec`: the globals dict, then the
`__builtins__` mapping, else a `NameError`. -/
def pyLookup (g : List (String × PyVal)) (x : String) : Except String PyVal :=
  match dictGet g x with
  | some v => .ok v
  | none =>
    match dictGet PythonEngine.SAFE_BUILTINS x with
    | some v => .ok v
    | none => .error ("name \x27" ++ x ++ "\x27 is not defined")

/-- Python's recursion limit for the modelled interpreter. -/
def pyRecursionLimit : Nat := 1000

/-- Expression evaluation for the modelled Python fragment. A call of a
user function evaluates its body; zero-argument calls of builtins and
calls of non-callables raise a `TypeError`. -/
def pyEval : Nat → List (String × PyVal) → PyExpr → Except String PyVal
  | 0, _, _ => .error "maximum recursion depth exceeded"
  | fuel + 1, g, e =>
    match e with
    | .lit l => .ok (pyLitVal l)
    | .name x => pyLookup g x
    | .call f =>
      match pyEval fuel g f with
      | .error m => .error m
      | .ok v =>
        match v with
        | .func body =>
          match pyEval fuel g body with
          | .error m => .error m
          | .ok _ => .ok .pynone
        | .builtinFn n => .error ("builtin \x27" ++ n ++ "\x27 called without required arguments")
        | other => .error ("\x27" ++ pyTypeName other ++ "\x27 object is not callable")

/-- Top-level `exec` over the statement list, mutating the globals. -/
def pyRunStmts (fuel : Nat) : List (String × PyVal) → List PyStmt →
    Except String (List (String × PyVal))
  | g, [] => .ok g
  | g, .assign x e :: rest =>
    match pyEval fuel g e with
    | .error m => .error m
    | .ok v => pyRunStmts fuel (dictSet g x v) rest
  | g, .exprStmt e :: rest =>
    match pyEval fuel g e with
    | .error m => .error m
    | .ok _ => pyRunStmts fuel g rest
  | g, .defFunc x body :: rest => pyRunStmts fuel (dictSet g x (.func body)) rest

/-- `PythonEngine.execute_string` (`python_engine.py` 128-165): build a
fresh restricted globals dict, `exec` the code, then look up and call
the entry point; any exception is captured as the last error. The
engine's prior state is never read (`_eng`), which is exactly the
per-call isolation property. -/
def PythonEngine.executeString (_eng : PythonEngine) (code : List PyStmt)
    (entry : Option String) : Bool × PythonEngine :=
  match pyRunStmts pyRecursionLimit PythonEngine.createRestrictedGlobals code with
  | .error e => (false, { lastError := some e })
  | .ok g1 =>
    match entry with
    | none => (true, { lastError := none })
    | some ep =>
      if ep = "" then (true, { lastError := none })
      else
        match dictGet g1 ep with
        | none => (false, { lastError := some ("Entry point \x27" ++ ep ++ "\x27 not found") })
        | some v =>
          if ¬ pyCallable v then
            (false, { lastError := some ("Entry point \x27" ++ ep ++ "\x27 is not callable") })
          else
            match pyEval pyRecursionLimit g1 (.call (.name ep)) with
            | .ok _ => (true, { lastError := none })
            | .error e => (false, { lastError := some e })

/-- Literals of the modelled Lua fragment. -/
inductive LuaLit where
  | num (n : Int)
  | str (s : String)
  | boolean (b : Bool)
  | nil
deriving DecidableEq

/-- Lua expressions: literals, global reads, zero-argument calls. -/
inductive LuaExpr where
  | lit (l : LuaLit)
  | name (x : String)
  | call (f : LuaExpr)
deriving DecidableEq

/-- Lua statements. -/
inductive LuaStmt where
  | assign (x : String) (e : LuaExpr)
  | callStmt (e : LuaExpr)
  | funcDef (x : String) (body : LuaExpr)
deriving DecidableEq

/-- Lua runtime values. -/
inductive LuaVal where
  | nil
  | num (n : Int)
  | str (s : String)
  | boolean (b : Bool)
  | func (body : LuaExpr)
  | builtin (name : String)
  | table (name : String)
deriving DecidableEq

/-- Value of a Lua literal. -/
def luaLitVal : LuaLit → LuaVal
  | .num n => .num n
  | .str s => .str s
  | .boolean b => .boolean b
  | .nil => .nil

/-- Lua `type()` name, used in call-error messages. -/
def luaTypeName : LuaVal → String
  | .nil => "nil"
  | .num _ => "number"
  | .str _ => "string"
  | .boolean _ => "boolean"
  | .func _ => "function"
  | .builtin _ => "function"
  | .table _ => "table"

/-- `LuaEngine` state: only the captured last error. -/
structure LuaEngine where
  lastError : Option String := none
deriving DecidableEq

/-- `LuaEngine.SAFE_BUILTINS` (`lua_engine.py` 25-29). -/
def LuaEngine.SAFE_BUILTINS : List String :=
  ["assert", "error", "ipairs", "next", "pairs", "pcall",
   "print", "select", "tonumber", "tostring", "type",
   "unpack", "xpcall", "_VERSION"]

/-- `LuaEngine.SAFE_MODULES` (`lua_engine.py` 32). -/
def LuaEngine.SAFE_MODULES : List String := ["string", "table", "math"]

/-- The dangerous globals cleared by `_create_runtime`
(`lua_engine.py` 67-70). -/
def LuaEngine.dangerousGlobals : List String :=
  ["io", "os", "loadfile", "dofile", "load", "loadstring",
   "require", "package", "debug", "rawget", "rawset",
   "rawequal", "setfenv", "getfenv", "newproxy",
   "collectgarbage", "gcinfo", "module"]

/-- A representative stock `LuaRuntime` global table, as `lupa` creates
it: the safe builtins, the safe modules, the dangerous globals, and a
few additional stock names the denylist does not touch. -/
def luaStockGlobals : List (String × LuaVal) :=
  [("assert", .builtin "assert"), ("error", .builtin "error"),
   ("ipairs", .builtin "ipairs"), ("next", .builtin "next"),
   ("pairs", .builtin "pairs"), ("pcall", .builtin "pcall"),
   ("print", .builtin "print"), ("select", .builtin "select"),
   ("tonumber", .builtin "tonumber"), ("tostring", .builtin "tostring"),
   ("type", .builtin "type"), ("unpack", .builtin "unpack"),
   ("xpcall", .builtin "xpcall"), ("_VERSION", .str "Lua 5.1"),
   ("string", .table "string"), ("table", .table "table"),
   ("math", .table "math"),
   ("io", .table "io"), ("os", .table "os"),
   ("loadfile", .builtin "loadfile"), ("dofile", .builtin "dofile"),
   ("load", .builtin "load"), ("loadstring", .builtin "loadstring"),
   ("require", .builtin "require"), ("package", .table "package"),
   ("debug", .table "debug"), ("rawget", .builtin "rawget"),
   ("rawset", .builtin "rawset"), ("rawequal", .builtin "rawequal"),
   ("setfenv", .builtin "setfenv"), ("getfenv", .builtin "getfenv"),
   ("newproxy", .builtin "newproxy"), ("collectgarbage", .builtin "collectgarbage"),
   ("gcinfo", .builtin "gcinfo"), ("module", .builtin "module"),
   ("setmetatable", .builtin "setmetatable"), ("getmetatable", .builtin "getmetatable"),
   ("coroutine", .table "coroutine"), ("rawlen", .builtin "rawlen")]

/-- Assigning `nil` to a Lua global removes the key. -/
def luaSetNil (g : List (String × LuaVal)) (n : String) : List (String × LuaVal) :=
  g.filter (fun p => p.1 ≠ n)

/-- `LuaEngine._create_runtime` (`lua_engine.py` 48-82): collect the
safe globals from the stock runtime, clear the dangerous ones, re-add
the safe ones, then expose the `editor` table. -/
def LuaEngine.createRuntime : List (String × LuaVal) :=
  let g0 := luaStockGlobals
  let safeGlobals :=
    (LuaEngine.SAFE_BUILTINS ++ LuaEngine.SAFE_MODULES).filterMap
      (fun n => (dictGet g0 n).map (fun v => (n, v)))
  let g1 := LuaEngine.dangerousGlobals.foldl (fun g n => luaSetNil g n) g0
  let g2 := safeGlobals.foldl (fun g p => dictSet g p.1 p.2) g1
  dictSet g2 "editor" (.table "editor")

/-- Lua global read: an absent name reads as `nil`. -/
def luaLookup (g : List (String × LuaVal)) (x : String) : LuaVal :=
  (dictGet g x).getD .nil

/-- Interpreter fuel for the modelled Lua runtime (the C stack bound). -/
def luaStackBound : Nat := 200

/-- Lua expression evaluation: calling a user function evaluates its
body; calling a stock builtin is a no-op returning `nil`; calling any
other value raises the standard Lua error text. -/
def luaEval : Nat → List (String × LuaVal) → LuaExpr → Except String LuaVal
  | 0, _, _ => .error "stack overflow"
  | fuel + 1, g, e =>
    match e with
    | .lit l => .ok (luaLitVal l)
    | .name x => .ok (luaLookup g x)
    | .call f =>
      match luaEval fuel g f with
      | .error m => .error m
      | .ok v =>
        match v with
        | .func body =>
          match luaEval fuel g body with
          | .error m => .error m
          | .ok _ => .ok .nil
        | .builtin _ => .ok .nil
        | other => .error ("attempt to call a " ++ luaTypeName other ++ " value")

/-- Execute the modelled Lua chunk, mutating the global table. -/
def luaRunStmts (fuel : Nat) : List (String × LuaVal) → List LuaStmt →
    Except String (List (String × LuaVal))
  | g, [] => .ok g
  | g, .assign x e :: rest =>
    match luaEval fuel g e with
    | .error m => .error m
    | .ok v => luaRunStmts fuel (dictSet g x v) rest
  | g, .callStmt e :: rest =>
    match luaEval fuel g e with
    | .error m => .error m
    | .ok _ => luaRunStmts fuel g rest
  | g, .funcDef x body :: rest => luaRunStmts fuel (dictSet g x (.func body)) rest

/-- Python type name of the value `lupa` hands back for a primitive
Lua global (numbers, strings and booleans are converted to Python
scalars at the `g[entry_point]` boundary). -/
def luaPyTypeName : LuaVal → String
  | .num _ => "int"
  | .str _ => "str"
  | .boolean _ => "bool"
  | _ => ""

/-- The Lua values `lupa` converts to plain Python scalars. -/
def luaIsScalar : LuaVal → Bool
  | .num _ => true
  | .str _ => true
  | .boolean _ => true
  | _ => false

/-- Model of the `func()` call in `execute_string` (`lua_engine.py`
168): `func = g[entry_point]` goes through `lupa`, which converts a
number/string/boolean to a Python scalar — calling that raises
`TypeError: '<type>' object is not callable`. A wrapped Lua function
runs inside the runtime (a Lua error there is captured as usual); a
stock builtin call is a modelled no-op; calling a table wrapper
raises the Lua-level call error. -/
def luaEntryCall (fuel : Nat) (g : List (String × LuaVal)) : LuaVal → Except String LuaVal
  | .func body => luaEval fuel g body
  | .builtin _ => .ok .nil
  | .num _ => .error "\x27int\x27 object is not callable"
  | .str _ => .error "\x27str\x27 object is not callable"
  | .boolean _ => .error "\x27bool\x27 object is not callable"
  | .table _ => .error "attempt to call a table value"
  | .nil => .error "\x27NoneType\x27 object is not callable"

/-- `LuaEngine.execute_string` (`lua_engine.py` 143-175): build a fresh
sandboxed runtime, execute the chunk, then fetch and call the entry
point. There is no callable check: a non-`nil`, non-function entry is
called (via `luaEntryCall`, on the value `lupa` converted) and the
resulting Python or Lua error text is captured. The prior engine state
is never read (`_eng`). -/
def LuaEngine.executeString (_eng : LuaEngine) (code : List LuaStmt)
    (entry : Option String) : Bool × LuaEngine :=
  let g0 := LuaEngine.createRuntime
  match luaRunStmts luaStackBound g0 code with
  | .error e => (false, { lastError := some e })
  | .ok g1 =>
    match entry with
    | none => (true, { lastError := none })
    | some ep =>
      if ep = "" then (true, { lastError := none })
      else
        match luaLookup g1 ep with
        | .nil => (false, { lastError := some ("Entry point \x27" ++ ep ++ "\x27 not found") })
        | v =>
          match luaEntryCall luaStackBound g1 v with
          | .ok _ => (true, { lastError := none })
          | .error e => (false, { lastError := some e })

/-- A host environment for concrete evaluations in the theorems below. -/
def demoEnv : HostEnv where
  editorText := "line1\nline2"
  selection := ""
  filePath := some "/home/user/docs/report.txt"
  language := "python"
  today := "2026-10-12"
  nowDT := "2026-10-12 09:00:00"
  runCommand := fun _ _ _ => .done 0 "" ""
  lupaAvailable := true
  luaRunFile := fun _ _ => (true, none)
  luaRunCode := fun _ _ => (true, none)
  pyRunFile := fun _ _ => (true, none)
  pyRunCode := fun _ _ => (true, none)

example :
    (PythonEngine.executeString {} [PyStmt.assign "x" (.lit (.int 5))] none).1 = true := by
  decide

example :
    PythonEngine.executeString {} [PyStmt.exprStmt (.name "my_var")] none
      = (false, { lastError := some "name \x27my_var\x27 is not defined" }) := by
  decide

example :
    (LuaEngine.executeString {} [LuaStmt.assign "x" (.lit (.num 5))] (some "x")).2.lastError
      = some "\x27int\x27 object is not callable" := by
  decide

example :
    ActionExecutor.execute demoEnv {}
      { id := "a", type := .notify, config := [("title", .str "T"), ("message", .str "M")] }
      [] []
      = (true, [HostEvent.notify "T" "M"]) := by
  simp [ActionExecutor.execute, ActionExecutor.executeInner, executeNotify, dictGet,
        notifyOp, Json.pyStr]

/-! ## Claim theorems -/

theorem pyRunStmts_read_undef {m : String} (fuel : Nat)
    (g : List (String × PyVal)) (x : String) (h : pyLookup g x = .error m) :
    pyRunStmts (fuel + 1) g [PyStmt.exprStmt (.name x)] = .error m := by
  simp [pyRunStmts, pyEval, h]

theorem luaRunStmts_call_undef (fuel : Nat)
    (g : List (String × LuaVal)) (x : String) (h : luaLookup g x = .nil) :
    luaRunStmts (fuel + 2) g [LuaStmt.callStmt (.call (.name x))]
      = .error "attempt to call a nil value" := by
  simp [luaRunStmts, luaEval, h]
  decide

/-- C1: each `execute_string` call of either engine runs in a freshly
constructed interpreter state. First two conjuncts: the result of an
execution is independent of the engine's prior state (the call never
reads it). Last two conjuncts: after a first execution whose code binds
a global `x` (as a value or a function), a second execution that reads
(Python) or calls (Lua) `x` fails with the unbound-name behaviour,
provided `x` is not one of the fresh sandbox bindings. -/
theorem C1_fresh_interpreter_per_execution :
    (∀ (e1 e2 : PythonEngine) (code : List PyStmt) (entry : Option String),
       PythonEngine.executeString e1 code entry = PythonEngine.executeString e2 code entry) ∧
    (∀ (e1 e2 : LuaEngine) (code : List LuaStmt) (entry : Option String),
       LuaEngine.executeString e1 code entry = LuaEngine.executeString e2 code entry) ∧
    (∀ (eng : PythonEngine) (first : List PyStmt) (entry1 : Option String)
       (x : String) (v : PyLit),
       dictGet PythonEngine.createRestrictedGlobals x = none →
       dictGet PythonEngine.SAFE_BUILTINS x = none →
       PythonEngine.executeString
         (PythonEngine.executeString eng (PyStmt.assign x (.lit v) :: first) entry1).2
         [PyStmt.exprStmt (.name x)] none
         = (false, { lastError := some ("name \x27" ++ x ++ "\x27 is not defined") })) ∧
    (∀ (eng : LuaEngine) (first : List LuaStmt) (entry1 : Option String) (x : String),
       dictGet LuaEngine.createRuntime x = none →
       LuaEngine.executeString
         (LuaEngine.executeString eng (LuaStmt.funcDef x (.lit .nil) :: first) entry1).2
         [LuaStmt.callStmt (.call (.name x))] none
         = (false, { lastError := some "attempt to call a nil value" })) := by
  refine ⟨fun e1 e2 code entry => rfl, fun e1 e2 code entry => rfl, ?_, ?_⟩
  · intro eng first entry1 x v hg hb
    have hlook : pyLookup PythonEngine.createRestrictedGlobals x
        = .error ("name \x27" ++ x ++ "\x27 is not defined") := by
      simp [pyLookup, hg, hb]
    have hfuel : pyRecursionLimit = 999 + 1 := rfl
    rw [PythonEngine.executeString, hfuel,
        pyRunStmts_read_undef 999 PythonEngine.createRestrictedGlobals x hlook]
  · intro eng first entry1 x hg
    have hlook : luaLookup LuaEngine.createRuntime x = .nil := by
      simp [luaLookup, hg]
    have hfuel : luaStackBound = 198 + 2 := rfl
    rw [LuaEngine.executeString, hfuel,
        luaRunStmts_call_undef 198 LuaEngine.createRuntime x hlook]

/-- C1 witness: concrete instantiation at the global name `my_global`. -/
theorem C1_fresh_interpreter_per_execution_witness :
    PythonEngine.executeString
      (PythonEngine.executeString { lastError := none }
        [PyStmt.assign "my_global" (.lit (.int 42))] none).2
      [PyStmt.exprStmt (.name "my_global")] none
      = (false, { lastError := some "name \x27my_global\x27 is not defined" }) ∧
    LuaEngine.executeString
      (LuaEngine.executeString { lastError := none }
        [LuaStmt.funcDef "my_global" (.lit .nil)] none).2
      [LuaStmt.callStmt (.call (.name "my_global"))] none
      = (false, { lastError := some "attempt to call a nil value" }) :=
  ⟨C1_fresh_interpreter_per_execution.2.2.1 { lastError := none } [] none "my_global"
     (.int 42) (by decide) (by decide),
   C1_fresh_interpreter_per_execution.2.2.2 { lastError := none } [] none "my_global"
     (by decide)⟩

/-- Lua values that are neither `nil` nor callable. -/
def luaNotCallable : LuaVal → Bool
  | .num _ => true
  | .str _ => true
  | .boolean _ => true
  | .table _ => true
  | _ => false

theorem luaEval_call_noncallable (fuel : Nat) (g : List (String × LuaVal))
    (x : String) (v : LuaVal) (h : luaLookup g x = v) (hnc : luaNotCallable v = true) :
    luaEval (fuel + 2) g (.call (.name x))
      = .error ("attempt to call a " ++ luaTypeName v ++ " value") := by
  cases v <;> simp [luaNotCallable] at hnc <;> simp [luaEval, h, luaTypeName]

/-- C3 counterexample: in the Lua engine an entry point bound to a
non-callable value is not reported as "Entry point 'x' is not
callable"; `lua_engine.py` 161-168 has no callable check — the value
(converted by `lupa` to a Python int) is called, and the resulting
`TypeError` text becomes the last error. -/
theorem C3_entry_point_counterexample :
    LuaEngine.executeString { lastError := none }
      [LuaStmt.assign "x" (.lit (.num 5))] (some "x")
      = (false, { lastError := some "\x27int\x27 object is not callable" }) ∧
    ("\x27int\x27 object is not callable" : String)
      ≠ "Entry point \x27x\x27 is not callable" := by
  constructor
  · decide
  · decide

/-- C3 amended: when the supplied entry-point name is unbound in the
post-execution environment, both engines fail with exactly
`Entry point '<name>' not found`. When it is bound to a non-callable
value, the Python engine fails with exactly
`Entry point '<name>' is not callable`, while the Lua engine attempts
the call anyway: a number/string/boolean entry (converted by `lupa` to
a Python scalar) fails with `TypeError: '<type>' object is not
callable`, and a table entry fails with the Lua call error
`attempt to call a table value`. -/
theorem C3_entry_point_errors :
    (∀ (eng : PythonEngine) (code : List PyStmt) (ep : String)
       (g1 : List (String × PyVal)),
       ep ≠ "" →
       pyRunStmts pyRecursionLimit PythonEngine.createRestrictedGlobals code = .ok g1 →
       dictGet g1 ep = none →
       PythonEngine.executeString eng code (some ep)
         = (false, { lastError := some ("Entry point \x27" ++ ep ++ "\x27 not found") })) ∧
    (∀ (eng : PythonEngine) (code : List PyStmt) (ep : String)
       (g1 : List (String × PyVal)) (v : PyVal),
       ep ≠ "" →
       pyRunStmts pyRecursionLimit PythonEngine.createRestrictedGlobals code = .ok g1 →
       dictGet g1 ep = some v →
       pyCallable v = false →
       PythonEngine.executeString eng code (some ep)
         = (false, { lastError := some ("Entry point \x27" ++ ep ++ "\x27 is not callable") })) ∧
    (∀ (eng : LuaEngine) (code : List LuaStmt) (ep : String)
       (g1 : List (String × LuaVal)),
       ep ≠ "" →
       luaRunStmts luaStackBound LuaEngine.createRuntime code = .ok g1 →
       luaLookup g1 ep = .nil →
       LuaEngine.executeString eng code (some ep)
         = (false, { lastError := some ("Entry point \x27" ++ ep ++ "\x27 not found") })) ∧
    (∀ (eng : LuaEngine) (code : List LuaStmt) (ep : String)
       (g1 : List (String × LuaVal)) (v : LuaVal),
       ep ≠ "" →
       luaRunStmts luaStackBound LuaEngine.createRuntime code = .ok g1 →
       luaLookup g1 ep = v →
       luaIsScalar v = true →
       LuaEngine.executeString eng code (some ep)
         = (false,
            { lastError := some ("\x27" ++ luaPyTypeName v ++ "\x27 object is not callable") })) ∧
    (∀ (eng : LuaEngine) (code : List LuaStmt) (ep : String)
       (g1 : List (String × LuaVal)) (nm : String),
       ep ≠ "" →
       luaRunStmts luaStackBound LuaEngine.createRuntime code = .ok g1 →
       luaLookup g1 ep = .table nm →
       LuaEngine.executeString eng code (some ep)
         = (false, { lastError := some "attempt to call a table value" })) := by
  refine ⟨?_, ?_, ?_, ?_, ?_⟩
  · intro eng code ep g1 hne hrun hget
    simp [PythonEngine.executeString, hrun, hne, hget]
  · intro eng code ep g1 v hne hrun hget hc
    simp [PythonEngine.executeString, hrun, hne, hget, hc]
  · intro eng code ep g1 hne hrun hlook
    simp [LuaEngine.executeString, hrun, hne, hlook]
  · intro eng code ep g1 v hne hrun hlook hsc
    cases v <;>
      first
        | (simp [luaIsScalar] at hsc ; done)
        | simp [LuaEngine.executeString, hrun, hne, hlook, luaEntryCall, luaPyTypeName]
  · intro eng code ep g1 nm hne hrun hlook
    simp [LuaEngine.executeString, hrun, hne, hlook, luaEntryCall]

/-- C3 witness: concrete scripts exercising all five amended cases. -/
theorem C3_entry_point_errors_witness :
    PythonEngine.executeString { lastError := none } [] (some "run")
      = (false, { lastError := some "Entry point \x27run\x27 not found" }) ∧
    PythonEngine.executeString { lastError := none }
      [PyStmt.assign "x" (.lit (.int 1))] (some "x")
      = (false, { lastError := some "Entry point \x27x\x27 is not callable" }) ∧
    LuaEngine.executeString { lastError := none } [] (some "run")
      = (false, { lastError := some "Entry point \x27run\x27 not found" }) ∧
    LuaEngine.executeString { lastError := none }
      [LuaStmt.assign "y" (.lit (.str "s"))] (some "y")
      = (false, { lastError := some "\x27str\x27 object is not callable" }) ∧
    LuaEngine.executeString { lastError := none } [] (some "editor")
      = (false, { lastError := some "attempt to call a table value" }) :=
  ⟨C3_entry_point_errors.1 { lastError := none } [] "run"
     PythonEngine.createRestrictedGlobals (by decide) (by rfl) (by decide),
   C3_entry_point_errors.2.1 { lastError := none } [PyStmt.assign "x" (.lit (.int 1))] "x"
     (dictSet PythonEngine.createRestrictedGlobals "x" (.int 1))
     (.int 1) (by decide) (by rfl) (by decide) (by decide),
   C3_entry_point_errors.2.2.1 { lastError := none } [] "run"
     LuaEngine.createRuntime (by decide) (by rfl) (by decide),
   C3_entry_point_errors.2.2.2.1 { lastError := none } [LuaStmt.assign "y" (.lit (.str "s"))] "y"
     (dictSet LuaEngine.createRuntime "y" (.str "s"))
     (.str "s") (by decide) (by rfl) (by decide) (by decide),
   C3_entry_point_errors.2.2.2.2 { lastError := none } [] "editor"
     LuaEngine.createRuntime "editor" (by decide) (by rfl) (by decide)⟩

/-- C4: `execute` always returns a boolean (it is a total function into
`Bool × Log`), and the two conjuncts characterize the `try/except`
boundary completely: a handler that returns normally passes its result
through, and a handler that raises is converted to `false` plus the
`Plugin Error` notification. -/
theorem C4_execute_boundary :
    (∀ (env : HostEnv) (ex : ActionExecutor) (a : Action) (ctx : Ctx) (log : Log)
       (b : Bool) (log1 : Log),
       ActionExecutor.executeInner env ex a ctx log = (.ok b, log1) →
       ActionExecutor.execute env ex a ctx log = (b, log1)) ∧
    (∀ (env : HostEnv) (ex : ActionExecutor) (a : Action) (ctx : Ctx) (log : Log)
       (e : String) (log1 : Log),
       ActionExecutor.executeInner env ex a ctx log = (.error e, log1) →
       ActionExecutor.execute env ex a ctx log
         = (false, notifyOp ex "Plugin Error" ("Action failed: " ++ e) log1)) := by
  constructor
  · intro env ex a ctx log b log1 h
    rw [ActionExecutor.execute, h]
  · intro env ex a ctx log e log1 h
    rw [ActionExecutor.execute, h]

/-- A snippet whose `variables` config is a string: resolving it raises
`AttributeError` inside the handler. -/
def rogueSnippetAction : Action :=
  { id := "s", type := .snippet, config := [("variables", .str "x")] }

/-- C4 witness: the raising snippet comes back as `false` plus a
`Plugin Error` notification. -/
theorem C4_execute_boundary_witness :
    ActionExecutor.execute demoEnv {} rogueSnippetAction [] []
      = (false, [HostEvent.notify "Plugin Error"
          "Action failed: \x27str\x27 object has no attribute \x27items\x27"]) :=
  C4_execute_boundary.2 demoEnv {} rogueSnippetAction [] []
    "\x27str\x27 object has no attribute \x27items\x27" []
    (by simp [ActionExecutor.executeInner, rogueSnippetAction, executeSnippet, dictGet,
              Json.pyType])

/-- A chain of three sub-actions whose second fails by returning
`false` (a transform over the empty selection), not by raising. -/
def chainSilentDemo : Action :=
  { id := "c", type := .chain,
    config := [("actions", .arr
      [.obj [("type", .str "notify"), ("title", .str "A"), ("message", .str "hello")],
       .obj [("type", .str "transform")],
       .obj [("type", .str "notify"), ("title", .str "C"), ("message", .str "bye")]])] }

/-- A chain of three sub-actions whose second raises during synthesis
(invalid `type`), which is the only case the chain reports by index. -/
def chainRaiseDemo : Action :=
  { id := "c", type := .chain,
    config := [("actions", .arr
      [.obj [("type", .str "notify"), ("title", .str "A"), ("message", .str "hello")],
       .obj [("type", .str "badtype")],
       .obj [("type", .str "notify"), ("title", .str "C"), ("message", .str "bye")]])] }

/-- C2 counterexample: a chain whose second entry fails by returning
`false` stops and returns `false`, but emits no notification at all
about which index failed — the final log is exactly the first entry's
notification and contains no `Chain Error` event, contradicting "the
chain reports which index failed". -/
theorem C2_chain_counterexample :
    ActionExecutor.execute demoEnv {} chainSilentDemo [] []
      = (false, [HostEvent.notify "A" "hello"]) ∧
    ((ActionExecutor.execute demoEnv {} chainSilentDemo [] []).2.filter
       (fun ev => match ev with
         | HostEvent.notify t _ => t == "Chain Error"
         | _ => false)) = [] := by
  have h : ActionExecutor.execute demoEnv {} chainSilentDemo [] []
      = (false, [HostEvent.notify "A" "hello"]) := by
    simp [ActionExecutor.execute, ActionExecutor.executeInner, ActionExecutor.runChain,
          chainSilentDemo, synthChainAction, ActionType.ofString, executeNotify,
          executeTransform, dictGet, notifyOp, Json.pyStr, Json.isStr, demoEnv,
          List.find?, Option.map, Option.getD, Except.map]
  refine ⟨h, ?_⟩
  rw [h]
  decide

theorem runChain_append (env : HostEnv) (ex : ActionExecutor) (pid : String) (ctx : Ctx)
    (es1 es2 : List Json) (i : Nat) (log : Log) :
    ActionExecutor.runChain env ex pid ctx (es1 ++ es2) i log
      = (if (ActionExecutor.runChain env ex pid ctx es1 i log).1 then
           ActionExecutor.runChain env ex pid ctx es2 (i + es1.length)
             (ActionExecutor.runChain env ex pid ctx es1 i log).2
         else ActionExecutor.runChain env ex pid ctx es1 i log) := by
  induction es1 generalizing i log with
  | nil =>
    conv_lhs => rw [List.nil_append]
    simp [ActionExecutor.runChain]
  | cons e es1 ih =>
    rw [List.cons_append]
    rw [ActionExecutor.runChain]
    conv_rhs => rw [ActionExecutor.runChain]
    cases hs : synthChainAction pid i e with
    | error msg => simp
    | ok temp =>
      simp only []
      cases hr : (ActionExecutor.execute env ex temp ctx log).1 with
      | true =>
        simp only [if_true, eq_self_iff_true]
        rw [ih]
        simp [List.length_cons]
        have harr : i + 1 + es1.length = i + (es1.length + 1) := by omega
        rw [harr]
      | false => simp

/-- C2 amended: chain sub-actions run strictly in order and the chain
short-circuits — a prefix that fails makes the suffix irrelevant
(conjuncts 1-2, which also give "returns true iff every entry
succeeded in sequence"); a raise while synthesizing entry `i` is
caught and reported as `Action i failed` (conjunct 3); an entry whose
execution merely returns `false` stops the chain with that entry's
log and no index report (conjunct 4); concretely, a three-entry chain
whose second raises executes exactly the first two entries and reports
the failure at index 1 (conjunct 5). -/
theorem C2_chain_short_circuit :
    (∀ (env : HostEnv) (ex : ActionExecutor) (pid : String) (ctx : Ctx)
       (es1 es2 : List Json) (i : Nat) (log : Log),
       (ActionExecutor.runChain env ex pid ctx es1 i log).1 = true →
       ActionExecutor.runChain env ex pid ctx (es1 ++ es2) i log
         = ActionExecutor.runChain env ex pid ctx es2 (i + es1.length)
             (ActionExecutor.runChain env ex pid ctx es1 i log).2) ∧
    (∀ (env : HostEnv) (ex : ActionExecutor) (pid : String) (ctx : Ctx)
       (es1 es2 : List Json) (i : Nat) (log : Log),
       (ActionExecutor.runChain env ex pid ctx es1 i log).1 = false →
       ActionExecutor.runChain env ex pid ctx (es1 ++ es2) i log
         = ActionExecutor.runChain env ex pid ctx es1 i log) ∧
    (∀ (env : HostEnv) (ex : ActionExecutor) (pid : String) (ctx : Ctx)
       (e : Json) (es : List Json) (i : Nat) (log : Log) (msg : String),
       synthChainAction pid i e = .error msg →
       ActionExecutor.runChain env ex pid ctx (e :: es) i log
         = (false, notifyOp ex "Chain Error"
             ("Action " ++ toString i ++ " failed: " ++ msg) log)) ∧
    (∀ (env : HostEnv) (ex : ActionExecutor) (pid : String) (ctx : Ctx)
       (e : Json) (es : List Json) (i : Nat) (log : Log) (temp : Action),
       synthChainAction pid i e = .ok temp →
       (ActionExecutor.execute env ex temp ctx log).1 = false →
       ActionExecutor.runChain env ex pid ctx (e :: es) i log
         = (false, (ActionExecutor.execute env ex temp ctx log).2)) ∧
    ActionExecutor.execute demoEnv {} chainRaiseDemo [] []
      = (false, [HostEvent.notify "A" "hello",
                 HostEvent.notify "Chain Error"
                   "Action 1 failed: \x27badtype\x27 is not a valid ActionType"]) := by
  refine ⟨?_, ?_, ?_, ?_, ?_⟩
  · intro env ex pid ctx es1 es2 i log h
    rw [runChain_append, if_pos h]
  · intro env ex pid ctx es1 es2 i log h
    rw [runChain_append, if_neg (by simp [h])]
  · intro env ex pid ctx e es i log msg hs
    rw [ActionExecutor.runChain]
    split
    · rename_i msg2 heq
      have h2 := hs.symm.trans heq
      injection h2 with h3
      rw [h3]
    · rename_i temp heq
      exact absurd (hs.symm.trans heq) (by simp)
  · intro env ex pid ctx e es i log temp hs hf
    rw [ActionExecutor.runChain]
    split
    · rename_i msg2 heq
      exact absurd (hs.symm.trans heq) (by simp)
    · rename_i temp2 heq
      have h2 := hs.symm.trans heq
      injection h2 with h3
      subst h3
      rw [if_neg (by simp [hf])]
  · simp [ActionExecutor.execute, ActionExecutor.executeInner, ActionExecutor.runChain,
          chainRaiseDemo, synthChainAction, ActionType.ofString, executeNotify,
          dictGet, notifyOp, Json.pyStr, Json.isStr, demoEnv,
          List.find?, Option.map, Option.getD, Except.map]
    all_goals decide

/-- C2 witness: concrete instantiations of the four quantified
conjuncts of the amended chain theorem. -/
theorem C2_chain_short_circuit_witness :
    ActionExecutor.runChain demoEnv {} "p" [] ([] ++ [Json.num 1]) 0 []
      = ActionExecutor.runChain demoEnv {} "p" [] [Json.num 1]
          (0 + List.length ([] : List Json))
          (ActionExecutor.runChain demoEnv {} "p" [] [] 0 []).2 ∧
    ActionExecutor.runChain demoEnv {} "p" [] ([Json.str "bad"] ++ [Json.num 2]) 0 []
      = ActionExecutor.runChain demoEnv {} "p" [] [Json.str "bad"] 0 [] ∧
    ActionExecutor.runChain demoEnv {} "p" [] [Json.str "oops"] 0 []
      = (false, notifyOp {} "Chain Error"
          ("Action " ++ toString 0 ++
           " failed: \x27str\x27 object has no attribute \x27get\x27") []) ∧
    ActionExecutor.runChain demoEnv {} "p" [] [Json.obj [("type", Json.str "transform")]] 0 []
      = (false, (ActionExecutor.execute demoEnv {}
          { id := "p_chain_0", type := .transform, config := [] } [] []).2) :=
  ⟨C2_chain_short_circuit.1 demoEnv {} "p" [] [] [Json.num 1] 0 []
     (by simp [ActionExecutor.runChain]),
   C2_chain_short_circuit.2.1 demoEnv {} "p" [] [Json.str "bad"] [Json.num 2] 0 []
     (by simp [ActionExecutor.runChain, synthChainAction]),
   C2_chain_short_circuit.2.2.1 demoEnv {} "p" [] (Json.str "oops") [] 0 []
     "\x27str\x27 object has no attribute \x27get\x27" (by rfl),
   C2_chain_short_circuit.2.2.2.1 demoEnv {} "p" [] (Json.obj [("type", Json.str "transform")])
     [] 0 [] { id := "p_chain_0", type := .transform, config := [] } (by rfl)
     (by simp [ActionExecutor.execute, ActionExecutor.executeInner, executeTransform,
               dictGet, demoEnv, Json.isStr])⟩

/-- The claim's TriggerContext matching rule, amended only in that the
language criterion applies when the current language is present and
non-empty (the source guards it with Python truthiness). -/
def matchesSpecAmended (c : TriggerContext) (language : Option String)
    (filePath : Option String) : Prop :=
  (c.languages = [] ∧ c.file_patterns = []) ∨
  (∃ s, language = some s ∧ s ≠ "" ∧
     (c.languages.map pyLower).contains (pyLower s) = true) ∨
  (∃ p, filePath = some p ∧
     c.file_patterns.any (fun pat => fnmatch (pathBaseName p) pat) = true)

/-- C5 counterexample: with `languages = [""]` and current language
`""`, the claim's criterion holds (the empty language case-insensitively
equals the listed empty language, second conjunct), yet `matches`
returns `false`, because the source's truthiness guard skips the
language check for an empty string. -/
theorem C5_matches_counterexample :
    TriggerContext.matches { languages := [""], file_patterns := [] } (some "") none = false ∧
    ((([""] : List String).map pyLower).contains (pyLower "") = true) := by
  constructor
  · decide
  · decide

/-- C5 amended: `matches` returns true iff both lists are empty, or the
language is present, non-empty, and case-insensitively listed, or the
file path is present and its base name matches a listed glob — a match
on any criterion; plus the claim's two concrete instances. -/
theorem C5_matches_amended :
    (∀ (c : TriggerContext) (language : Option String) (filePath : Option String),
       TriggerContext.matches c language filePath = true ↔
         matchesSpecAmended c language filePath) ∧
    TriggerContext.matches { languages := ["python"] } (some "Python") none = true ∧
    TriggerContext.matches { languages := ["python"] } (some "javascript") none = false := by
  refine ⟨?_, by decide, by decide⟩
  intro c language filePath
  constructor
  · intro h
    unfold TriggerContext.matches at h
    split_ifs at h with h1 h2 h3
    · exact Or.inl h1
    · obtain ⟨hl, htr, hcont⟩ := h2
      cases language with
      | none => simp [optStrTruthy] at htr
      | some s =>
        refine Or.inr (Or.inl ⟨s, rfl, ?_, ?_⟩)
        · simpa [optStrTruthy] using htr
        · simpa using hcont
    · obtain ⟨hp, hsome, hany⟩ := h3
      cases filePath with
      | none => simp at hsome
      | some p => exact Or.inr (Or.inr ⟨p, rfl, by simpa using hany⟩)
  · intro h
    unfold TriggerContext.matches
    rcases h with h1 | ⟨s, rfl, hs, hcont⟩ | ⟨p, rfl, hany⟩
    · simp [h1]
    · have hl : c.languages ≠ [] := by
        intro hnil
        rw [hnil] at hcont
        simp at hcont
      split_ifs with h1 h2 <;> try rfl
      exact absurd ⟨hl, by simpa [optStrTruthy] using hs, by simpa using hcont⟩ h2
    · have hp : c.file_patterns ≠ [] := by
        intro hnil
        rw [hnil] at hany
        simp at hany
      split_ifs with h1 h2 h3 <;> try rfl
      exact absurd ⟨hp, by simp, by simpa using hany⟩ h3

/-- C5 witness: a concrete application of the amended equivalence. -/
theorem C5_matches_amended_witness :
    matchesSpecAmended { languages := ["python"] } (some "Python") none :=
  (C5_matches_amended.1 { languages := ["python"] } (some "Python") none).mp (by decide)

theorem dictGet_dictSet_self {α : Type} (m : List (String × α)) (k : String) (v : α) :
    dictGet (dictSet m k v) k = some v := by
  induction m with
  | nil => simp [dictSet, dictGet, List.find?]
  | cons p m ih =>
    by_cases h : p.1 = k
    · simp [dictSet, h, dictGet, List.find?]
    · simp only [dictSet, if_neg h]
      simp only [dictGet, List.find?] at ih ⊢
      rw [show (p.1 == k) = false by simp [h]]
      exact ih

theorem dictGet_dictSet_ne {α : Type} (m : List (String × α)) (k k' : String) (v : α)
    (hne : k ≠ k') : dictGet (dictSet m k v) k' = dictGet m k' := by
  induction m with
  | nil =>
    simp only [dictSet, dictGet, List.find?]
    rw [show (k == k') = false by simp [hne]]
  | cons p m ih =>
    by_cases h : p.1 = k
    · simp only [dictSet, if_pos h]
      simp only [dictGet, List.find?]
      rw [show (k == k') = false by simp [hne]]
      rw [show (p.1 == k') = false by simp [h, hne]]
    · simp only [dictSet, if_neg h]
      simp only [dictGet, List.find?] at ih ⊢
      cases hpk : (p.1 == k') with
      | true => rfl
      | false => exact ih

/-- Holds of a directory whose `plugin.json` exists but fails to load,
either at JSON decoding or while building the `Plugin` model. -/
def manifestParseFails (d : PluginDir) : Bool :=
  match d.manifest with
  | none => false
  | some (.error _) => true
  | some (.ok j) =>
    match Plugin.fromDict j d.name with
    | .ok _ => false
    | .error _ => true

theorem loadPlugins_foldl_untouched (dirs : List PluginDir)
    (acc : List (String × Plugin)) (n : String)
    (h : ∀ d ∈ dirs, ∀ p : Plugin, PluginManager.loadPlugin d = some p → p.name ≠ n) :
    dictGet
      (dirs.foldl
        (fun acc d =>
          match PluginManager.loadPlugin d with
          | some p => dictSet acc p.name p
          | none => acc)
        acc) n
      = dictGet acc n := by
  induction dirs generalizing acc with
  | nil => rfl
  | cons d dirs ih =>
    rw [List.foldl_cons]
    rw [ih _ (fun d2 hd2 p hp => h d2 (List.mem_cons_of_mem d hd2) p hp)]
    cases hp : PluginManager.loadPlugin d with
    | none => rfl
    | some p =>
      exact dictGet_dictSet_ne acc p.name n p (h d (List.mem_cons_self d dirs) p hp)

theorem loadPlugins_foldl_retrieve (dirs : List PluginDir)
    (acc : List (String × Plugin)) (d : PluginDir) (p : Plugin)
    (hmem : d ∈ dirs) (hload : PluginManager.loadPlugin d = some p)
    (hnd : ((dirs.filterMap PluginManager.loadPlugin).map Plugin.name).Nodup) :
    dictGet
      (dirs.foldl
        (fun acc d =>
          match PluginManager.loadPlugin d with
          | some p => dictSet acc p.name p
          | none => acc)
        acc) p.name
      = some p := by
  induction dirs generalizing acc with
  | nil => cases hmem
  | cons d0 dirs ih =>
    rw [List.foldl_cons]
    rcases List.mem_cons.mp hmem with heq | htail
    · subst heq
      rw [hload]
      have hnames : p.name ∉ (dirs.filterMap PluginManager.loadPlugin).map Plugin.name := by
        have : (d :: dirs).filterMap PluginManager.loadPlugin
            = p :: dirs.filterMap PluginManager.loadPlugin := by
          rw [List.filterMap_cons, hload]
        rw [this] at hnd
        simp only [List.map_cons] at hnd
        exact (List.nodup_cons.mp hnd).1
      rw [loadPlugins_foldl_untouched dirs _ p.name ?_]
      · exact dictGet_dictSet_self acc p.name p
      · intro d2 hd2 q hq hqn
        apply hnames
        rw [← hqn]
        exact List.mem_map_of_mem Plugin.name
          (List.mem_filterMap.mpr ⟨d2, hd2, hq⟩)
    · have hnd2 : ((dirs.filterMap PluginManager.loadPlugin).map Plugin.name).Nodup := by
        rw [List.filterMap_cons] at hnd
        cases hp0 : PluginManager.loadPlugin d0 with
        | none => rw [hp0] at hnd; exact hnd
        | some q =>
          rw [hp0] at hnd
          simp only [List.map_cons] at hnd
          exact (List.nodup_cons.mp hnd).2
      cases hp0 : PluginManager.loadPlugin d0 with
      | none => exact ih _ htail hnd2
      | some q => exact ih _ htail hnd2

/-- C6: a subdirectory without a manifest contributes nothing to the
loaded set (conjuncts 1-2); a subdirectory whose manifest fails to
parse still yields a Plugin entry keyed by the directory name with
version "0.0.0", disabled, and a diagnostic in `error` (conjunct 3);
and, whenever loaded plugin names do not collide, every successfully
produced entry — sibling errors included — is retrievable from the
registry after `load_plugins` (conjunct 4). -/
theorem C6_loader_error_isolation :
    (∀ d : PluginDir, d.manifest = none → PluginManager.loadPlugin d = none) ∧
    (∀ dirs : List PluginDir,
       PluginManager.loadPlugins dirs
         = PluginManager.loadPlugins (dirs.filter (fun d => d.manifest.isSome))) ∧
    (∀ d : PluginDir, manifestParseFails d = true →
       ∃ p : Plugin, PluginManager.loadPlugin d = some p ∧ p.name = d.name ∧
         p.version = "0.0.0" ∧ p.enabled = false ∧ p.error.isSome = true) ∧
    (∀ (dirs : List PluginDir) (d : PluginDir) (p : Plugin),
       d ∈ dirs → PluginManager.loadPlugin d = some p →
       ((dirs.filterMap PluginManager.loadPlugin).map Plugin.name).Nodup →
       dictGet (PluginManager.loadPlugins dirs) p.name = some p) := by
  refine ⟨?_, ?_, ?_, ?_⟩
  · intro d h
    simp [PluginManager.loadPlugin, h]
  · intro dirs
    unfold PluginManager.loadPlugins
    generalize ([] : List (String × Plugin)) = acc
    induction dirs generalizing acc with
    | nil => rfl
    | cons d dirs ih =>
      cases hm : d.manifest with
      | none =>
        have hl : PluginManager.loadPlugin d = none := by
          simp [PluginManager.loadPlugin, hm]
        simp only [List.filter_cons, hm, Option.isSome_none, Bool.false_eq_true,
          if_false, List.foldl_cons, hl]
        exact ih acc
      | some r =>
        simp only [List.filter_cons, hm, Option.isSome_some, if_true, List.foldl_cons]
        exact ih _
  · intro d h
    unfold manifestParseFails at h
    cases hm : d.manifest with
    | none => rw [hm] at h; simp at h
    | some r =>
      cases r with
      | error e =>
        exact ⟨{ name := d.name, version := "0.0.0", description := "", author := "",
                 path := d.name, enabled := false,
                 error := some ("Invalid JSON: " ++ e) },
               by simp [PluginManager.loadPlugin, hm], rfl, rfl, rfl, rfl⟩
      | ok j =>
        rw [hm] at h
        dsimp only [] at h
        cases hf : Plugin.fromDict j d.name with
        | ok p => rw [hf] at h; simp at h
        | error e =>
          exact ⟨{ name := d.name, version := "0.0.0", description := "", author := "",
                   path := d.name, enabled := false,
                   error := some ("Failed to load: " ++ e) },
                 by simp [PluginManager.loadPlugin, hm, hf], rfl, rfl, rfl, rfl⟩
  · intro dirs d p hmem hload hnd
    exact loadPlugins_foldl_retrieve dirs [] d p hmem hload hnd

/-- C6 witness: a broken manifest, a missing manifest, and a healthy
sibling, loaded together. -/
theorem C6_loader_error_isolation_witness :
    PluginManager.loadPlugin { name := "nomanifest", manifest := none } = none ∧
    (∃ p : Plugin,
       PluginManager.loadPlugin
           { name := "broken", manifest := some (.error "Expecting value: line 1 column 1 (char 0)") }
         = some p ∧ p.name = "broken" ∧
       p.version = "0.0.0" ∧ p.enabled = false ∧ p.error.isSome = true) ∧
    dictGet
      (PluginManager.loadPlugins
        [{ name := "broken", manifest := some (.error "bad") },
         { name := "good",
           manifest := some (.ok (Json.obj
             [("name", Json.str "good"), ("version", Json.str "1.0")])) }])
      "good"
      = some { name := "good", version := "1.0", description := "", author := "Unknown",
               path := "good", triggers := [], actions := [], enabled := true,
               error := none } :=
  ⟨C6_loader_error_isolation.1 { name := "nomanifest", manifest := none } rfl,
   C6_loader_error_isolation.2.2.1
     { name := "broken", manifest := some (.error "Expecting value: line 1 column 1 (char 0)") }
     rfl,
   C6_loader_error_isolation.2.2.2
     [{ name := "broken", manifest := some (.error "bad") },
      { name := "good",
        manifest := some (.ok (Json.obj
          [("name", Json.str "good"), ("version", Json.str "1.0")])) }]
     { name := "good",
       manifest := some (.ok (Json.obj
         [("name", Json.str "good"), ("version", Json.str "1.0")])) }
     { name := "good", version := "1.0", description := "", author := "Unknown",
       path := "good", triggers := [], actions := [], enabled := true, error := none }
     (List.Mem.tail _ (List.Mem.head _)) rfl (by decide)⟩

/-- C7: `execute_trigger` returns `false` with manager, executor and
log untouched when the plugin is absent (conjunct 1), disabled or
carrying a non-empty error message (conjunct 2 — the source tests
`plugin.error` for Python truthiness), the trigger id is not found
(conjunct 3), or the trigger's action reference dangles (conjunct 4);
the function is total, so none of these raise. When trigger and action
are both found and an executor is installed, the action runs with the
executor's plugin base path already set to this plugin's directory
(conjunct 5). -/
theorem C7_execute_trigger :
    (∀ (env : HostEnv) (mgr : PluginManager) (exec : Option ActionExecutor)
       (pluginName triggerId : String) (ctx : Ctx) (log : Log),
       mgr.getPlugin pluginName = none →
       PluginManager.executeTrigger env mgr exec pluginName triggerId ctx log
         = (false, exec, log)) ∧
    (∀ (env : HostEnv) (mgr : PluginManager) (exec : Option ActionExecutor)
       (pluginName triggerId : String) (ctx : Ctx) (log : Log) (plugin : Plugin),
       mgr.getPlugin pluginName = some plugin →
       (¬ plugin.enabled = true ∨ optStrTruthy plugin.error = true) →
       PluginManager.executeTrigger env mgr exec pluginName triggerId ctx log
         = (false, exec, log)) ∧
    (∀ (env : HostEnv) (mgr : PluginManager) (exec : Option ActionExecutor)
       (pluginName triggerId : String) (ctx : Ctx) (log : Log) (plugin : Plugin),
       mgr.getPlugin pluginName = some plugin →
       plugin.enabled = true → optStrTruthy plugin.error = false →
       plugin.triggers.find? (fun t => t.id == triggerId) = none →
       PluginManager.executeTrigger env mgr exec pluginName triggerId ctx log
         = (false, exec, log)) ∧
    (∀ (env : HostEnv) (mgr : PluginManager) (exec : Option ActionExecutor)
       (pluginName triggerId : String) (ctx : Ctx) (log : Log)
       (plugin : Plugin) (trigger : Trigger),
       mgr.getPlugin pluginName = some plugin →
       plugin.enabled = true → optStrTruthy plugin.error = false →
       plugin.triggers.find? (fun t => t.id == triggerId) = some trigger →
       plugin.getAction trigger.action_id = none →
       PluginManager.executeTrigger env mgr exec pluginName triggerId ctx log
         = (false, exec, log)) ∧
    (∀ (env : HostEnv) (mgr : PluginManager) (ex : ActionExecutor)
       (pluginName triggerId : String) (ctx : Ctx) (log : Log)
       (plugin : Plugin) (trigger : Trigger) (action : Action),
       mgr.getPlugin pluginName = some plugin →
       plugin.enabled = true → optStrTruthy plugin.error = false →
       plugin.triggers.find? (fun t => t.id == triggerId) = some trigger →
       plugin.getAction trigger.action_id = some action →
       PluginManager.executeTrigger env mgr (some ex) pluginName triggerId ctx log
         = ((ActionExecutor.execute env { ex with pluginBasePath := some plugin.path }
               action ctx log).1,
            some { ex with pluginBasePath := some plugin.path },
            (ActionExecutor.execute env { ex with pluginBasePath := some plugin.path }
               action ctx log).2)) := by
  refine ⟨?_, ?_, ?_, ?_, ?_⟩
  · intro env mgr exec pluginName triggerId ctx log h
    simp [PluginManager.executeTrigger, h]
  · intro env mgr exec pluginName triggerId ctx log plugin hp hcond
    rcases hcond with hdis | herr
    · simp [PluginManager.executeTrigger, hp, hdis]
    · simp [PluginManager.executeTrigger, hp, herr]
  · intro env mgr exec pluginName triggerId ctx log plugin hp hen herr hfind
    simp [PluginManager.executeTrigger, hp, hen, herr, hfind]
  · intro env mgr exec pluginName triggerId ctx log plugin trigger hp hen herr hfind hact
    simp [PluginManager.executeTrigger, hp, hen, herr, hfind, hact]
  · intro env mgr ex pluginName triggerId ctx log plugin trigger action hp hen herr hfind hact
    simp [PluginManager.executeTrigger, hp, hen, herr, hfind, hact]

/-- Plugins and manager used by the C7 witness. -/
def demoMgr : PluginManager :=
  { plugins :=
      [("off", { name := "off", version := "1.0", description := "", author := "",
                 path := "off", enabled := false }),
       ("tools", { name := "tools", version := "1.0", description := "", author := "",
                   path := "tools",
                   triggers := [{ id := "hello", type := .command, action_id := "greet" },
                                { id := "ghost", type := .command, action_id := "missing" }],
                   actions := [("greet",
                     { id := "greet", type := .notify,
                       config := [("title", Json.str "Hi"), ("message", Json.str "there")] })] })] }

/-- C7 witness: each branch exercised on a concrete registry. -/
theorem C7_execute_trigger_witness :
    PluginManager.executeTrigger demoEnv demoMgr (some {}) "absent" "hello" [] []
      = (false, some {}, []) ∧
    PluginManager.executeTrigger demoEnv demoMgr (some {}) "off" "hello" [] []
      = (false, some {}, []) ∧
    PluginManager.executeTrigger demoEnv demoMgr (some {}) "tools" "nope" [] []
      = (false, some {}, []) ∧
    PluginManager.executeTrigger demoEnv demoMgr (some {}) "tools" "ghost" [] []
      = (false, some {}, []) ∧
    PluginManager.executeTrigger demoEnv demoMgr (some {}) "tools" "hello" [] []
      = ((ActionExecutor.execute demoEnv { pluginBasePath := some "tools" }
            { id := "greet", type := .notify,
              config := [("title", Json.str "Hi"), ("message", Json.str "there")] } [] []).1,
         some { pluginBasePath := some "tools" },
         (ActionExecutor.execute demoEnv { pluginBasePath := some "tools" }
            { id := "greet", type := .notify,
              config := [("title", Json.str "Hi"), ("message", Json.str "there")] } [] []).2) :=
  ⟨C7_execute_trigger.1 demoEnv demoMgr (some {}) "absent" "hello" [] [] rfl,
   C7_execute_trigger.2.1 demoEnv demoMgr (some {}) "off" "hello" [] []
     { name := "off", version := "1.0", description := "", author := "",
       path := "off", enabled := false } rfl (Or.inl (by decide)),
   C7_execute_trigger.2.2.1 demoEnv demoMgr (some {}) "tools" "nope" [] []
     ((demoMgr.getPlugin "tools").getD
        { name := "", version := "", description := "", author := "", path := "" })
     rfl rfl rfl rfl,
   C7_execute_trigger.2.2.2.1 demoEnv demoMgr (some {}) "tools" "ghost" [] []
     ((demoMgr.getPlugin "tools").getD
        { name := "", version := "", description := "", author := "", path := "" })
     { id := "ghost", type := .command, action_id := "missing" }
     rfl rfl rfl rfl rfl,
   C7_execute_trigger.2.2.2.2 demoEnv demoMgr {} "tools" "hello" [] []
     ((demoMgr.getPlugin "tools").getD
        { name := "", version := "", description := "", author := "", path := "" })
     { id := "hello", type := .command, action_id := "greet" }
     { id := "greet", type := .notify,
       config := [("title", Json.str "Hi"), ("message", Json.str "there")] }
     rfl rfl rfl rfl rfl⟩

theorem applyTransform_unknown (ex : ActionExecutor) (text : String) (t : String)
    (log : Log) (h : t ∉ recognizedTransforms) :
    applyTransform ex text (.str t) log
      = (none, notifyOp ex "Transform Error" ("Unknown transform: " ++ t) log) := by
  simp only [recognizedTransforms, List.mem_cons, List.not_mem_nil, or_false] at h
  push_neg at h
  obtain ⟨h1, h2, h3, h4, h5, h6, h7, h8⟩ := h
  simp [applyTransform, Json.isStr, Json.pyStr, h1, h2, h3, h4, h5, h6, h7, h8]

/-- C8: the transform handler fails without any capability call when
the text read from the configured target (selection by default, or
file contents) is empty (conjuncts 1-2); and when the configured
transform name is unrecognized it fails with a notification naming the
bad value and performs no write (conjuncts 3-4). -/
theorem C8_transform_failures :
    (∀ (env : HostEnv) (ex : ActionExecutor) (config : List (String × Json)) (log : Log),
       ex.hasGetSelection = true →
       (dictGet config "target" = none ∨ dictGet config "target" = some (.str "selection")) →
       env.selection = "" →
       executeTransform env ex config log = (.ok false, log)) ∧
    (∀ (env : HostEnv) (ex : ActionExecutor) (config : List (String × Json)) (log : Log),
       ex.hasGetEditorText = true →
       dictGet config "target" = some (.str "file_contents") →
       env.editorText = "" →
       executeTransform env ex config log = (.ok false, log)) ∧
    (∀ (env : HostEnv) (ex : ActionExecutor) (config : List (String × Json))
       (log : Log) (t : String),
       ex.hasGetSelection = true →
       (dictGet config "target" = none ∨ dictGet config "target" = some (.str "selection")) →
       env.selection ≠ "" →
       dictGet config "transform" = some (.str t) →
       t ∉ recognizedTransforms →
       executeTransform env ex config log
         = (.ok false, notifyOp ex "Transform Error" ("Unknown transform: " ++ t) log)) ∧
    (∀ (env : HostEnv) (ex : ActionExecutor) (config : List (String × Json))
       (log : Log) (t : String),
       ex.hasGetEditorText = true →
       dictGet config "target" = some (.str "file_contents") →
       env.editorText ≠ "" →
       dictGet config "transform" = some (.str t) →
       t ∉ recognizedTransforms →
       executeTransform env ex config log
         = (.ok false, notifyOp ex "Transform Error" ("Unknown transform: " ++ t) log)) := by
  refine ⟨?_, ?_, ?_, ?_⟩
  · intro env ex config log hsel htgt hempty
    rcases htgt with h | h <;>
      simp [executeTransform, h, hsel, hempty, Json.isStr]
  · intro env ex config log htext htgt hempty
    simp [executeTransform, htgt, htext, hempty, Json.isStr]
  · intro env ex config log t hsel htgt hnonempty htr hunk
    have happ := applyTransform_unknown ex env.selection t log hunk
    rcases htgt with h | h <;>
      simp [executeTransform, h, hsel, hnonempty, htr, Json.isStr, happ]
  · intro env ex config log t htext htgt hnonempty htr hunk
    have happ := applyTransform_unknown ex env.editorText t log hunk
    simp [executeTransform, htgt, htext, hnonempty, htr, Json.isStr, happ]

/-- C8 witness: empty selection, and an unrecognized transform name. -/
theorem C8_transform_failures_witness :
    executeTransform demoEnv {} [("transform", .str "uppercase")] [] = (.ok false, []) ∧
    executeTransform
      { demoEnv with selection := "abc" } {}
      [("transform", .str "sponge_case")] []
      = (.ok false, [HostEvent.notify "Transform Error" "Unknown transform: sponge_case"]) :=
  ⟨C8_transform_failures.1 demoEnv {} [("transform", .str "uppercase")] []
     rfl (Or.inl rfl) rfl,
   C8_transform_failures.2.2.1 { demoEnv with selection := "abc" } {}
     [("transform", .str "sponge_case")] [] "sponge_case"
     rfl (Or.inl rfl) (by decide) rfl (by decide)⟩

/-- The claim's description of snippet variable resolution: selection,
file base name, full file path, date, date-time, or the literal config
string, never failing. -/
def snippetVarSpec (env : HostEnv) (source : String) : String :=
  if source = "selection" then env.selection
  else if source = "file_name" then
    match env.filePath with
    | some fp => pathBaseName fp
    | none => ""
  else if source = "file_path" then
    match env.filePath with
    | some fp => fp
    | none => ""
  else if source = "date" then env.today
  else if source = "datetime" then env.nowDT
  else source

theorem resolveVar_spec (env : HostEnv) (ex : ActionExecutor) (s : String)
    (h1 : ex.hasGetSelection = true) (h2 : ex.hasGetFilePath = true) :
    resolveVar env ex (.str s) = snippetVarSpec env s := by
  unfold resolveVar snippetVarSpec
  simp [Json.isStr, Json.pyStr, h1, h2]

/-- C9: a snippet with a string template and string-valued variable
sources resolves every variable per the claim's source table (via
`snippetVarSpec`, a literal fallback that never fails), substitutes
every braced and bare occurrence of each variable in declaration
order, and inserts the result at the cursor, returning success.
Conjunct 2 is the claim's `report.txt` instance. -/
theorem mapResolve_spec (env : HostEnv) (ex : ActionExecutor)
    (h1 : ex.hasGetSelection = true) (h2 : ex.hasGetFilePath = true)
    (l : List (String × String)) :
    (l.map (fun p => (p.1, Json.str p.2))).map (fun p => (p.1, resolveVar env ex p.2))
      = l.map (fun p => (p.1, snippetVarSpec env p.2)) := by
  induction l with
  | nil => rfl
  | cons p l ih =>
    simp only [List.map_cons]
    rw [resolveVar_spec env ex p.2 h1 h2, ih]

theorem C9_snippet_resolution :
    (∀ (env : HostEnv) (ex : ActionExecutor) (config : List (String × Json)) (log : Log)
       (template : String) (vars : List (String × String)),
       ex.hasGetSelection = true → ex.hasGetFilePath = true → ex.hasInsertText = true →
       dictGet config "template" = some (.str template) →
       dictGet config "variables"
         = some (.obj (vars.map (fun p => (p.1, Json.str p.2)))) →
       executeSnippet env ex config log
         = (.ok true, log ++ [.insertText (substVars template
             (vars.map (fun p => (p.1, snippetVarSpec env p.2))))])) ∧
    executeSnippet demoEnv {}
      [("template", .str ("Hello $" ++ "\x7bname\x7d")),
       ("variables", .obj [("name", .str "file_name")])] []
      = (.ok true, [.insertText "Hello report.txt"]) := by
  constructor
  · intro env ex config log template vars h1 h2 h3 ht hv
    simp [executeSnippet, ht, hv, h3, mapResolve_spec env ex h1 h2 vars]
  · decide

/-- C9 witness: the general conjunct applied at the `report.txt`
instance. -/
theorem C9_snippet_resolution_witness :
    executeSnippet demoEnv {}
      [("template", .str ("Greetings $" ++ "\x7bname\x7d")),
       ("variables", .obj [("name", .str "file_name")])] []
      = (.ok true, [.insertText (substVars ("Greetings $" ++ "\x7bname\x7d")
          [("name", snippetVarSpec demoEnv "file_name")])]) :=
  C9_snippet_resolution.1 demoEnv {}
    [("template", .str ("Greetings $" ++ "\x7bname\x7d")),
     ("variables", .obj [("name", .str "file_name")])] []
    ("Greetings $" ++ "\x7bname\x7d") [("name", "file_name")]
    rfl rfl rfl rfl rfl

/-- C10: snippet substitution is sequential, not simultaneous —
conjunct 1 states the loop as a left fold over the variables, each
replacement applied to the whole intermediate string; conjunct 2 shows
a resolved value containing a later variable's reference being
rewritten by that later replacement; conjuncts 3-4 show bare-`$name`
replacement rewriting the prefix of a longer `$name2` reference, so
the output depends on the variable order. -/
theorem C10_snippet_substitution_order :
    (∀ (template : String) (vals : List (String × String)),
       substVars template vals
         = vals.foldl (fun acc p =>
             pyReplace (pyReplace acc ("$" ++ "\x7b" ++ p.1 ++ "\x7d") p.2)
               ("$" ++ p.1) p.2) template) ∧
    executeSnippet demoEnv {} [("template", .str "$a"),
      ("variables", .obj [("a", .str ("$" ++ "\x7bb\x7d")), ("b", .str "X")])] []
      = (.ok true, [.insertText "X"]) ∧
    executeSnippet demoEnv {} [("template", .str "$n2"),
      ("variables", .obj [("n", .str "A"), ("n2", .str "B")])] []
      = (.ok true, [.insertText "A2"]) ∧
    executeSnippet demoEnv {} [("template", .str "$n2"),
      ("variables", .obj [("n2", .str "B"), ("n", .str "A")])] []
      = (.ok true, [.insertText "B"]) := by
  refine ⟨fun template vals => rfl, by decide, by decide, by decide⟩

end OnlyCode
